import Mathlib

/-!
Verification development for the FRIK full-body IK skeleton code
(Skeleton.cpp of the Fallout-4-VR-Body repository): a shallow embedding over
the reals of the transform-tree propagation, the two-bone leg and arm
solvers, the walk-cycle state machine, the neck-yaw solver and the hand-pose
selection, together with theorems settling the specification's claims.

Float values are modelled as real numbers; the NaN behaviour of acosf is
modelled by the explicit out-of-domain predicate cosLawNaN, and non-finite
tracked input by the FFloat type.  Utilities from common/Matrix.h (vector
length and normalization, clamp, degree conversion, atan2, rotateVectorVec)
are not among the given source files; they are modelled from the spec and
standard library semantics, and each such definition says so in its
doc comment.
-/

set_option maxHeartbeats 1000000

noncomputable section

/-- Three-component real vector, mirroring NiPoint3. -/
structure Vec3 where
  x : ℝ
  y : ℝ
  z : ℝ

instance : Add Vec3 := ⟨fun a b => ⟨a.x + b.x, a.y + b.y, a.z + b.z⟩⟩

instance : Sub Vec3 := ⟨fun a b => ⟨a.x - b.x, a.y - b.y, a.z - b.z⟩⟩

instance : Neg Vec3 := ⟨fun a => ⟨-a.x, -a.y, -a.z⟩⟩

instance : HMul Vec3 ℝ Vec3 := ⟨fun a c => ⟨a.x * c, a.y * c, a.z * c⟩⟩

instance : HDiv Vec3 ℝ Vec3 := ⟨fun a c => ⟨a.x / c, a.y / c, a.z / c⟩⟩

/-- Dot product, mirroring vec3Dot of common/Matrix.h (modelled from the spec:
the file is not among the given sources). -/
def vec3Dot (a b : Vec3) : ℝ := a.x * b.x + a.y * b.y + a.z * b.z

/-- Cross product of two 3-vectors (standard right-handed convention). -/
def vec3Cross (a b : Vec3) : Vec3 :=
  ⟨a.y * b.z - a.z * b.y, a.z * b.x - a.x * b.z, a.x * b.y - a.y * b.x⟩

/-- Euclidean length, mirroring vec3Len of common/Matrix.h (modelled from the
spec: the file is not among the given sources). -/
noncomputable def vec3Len (v : Vec3) : ℝ := Real.sqrt (v.x ^ 2 + v.y ^ 2 + v.z ^ 2)

/-- Normalization, mirroring vec3Norm of common/Matrix.h (modelled from the
spec): the vector divided by its length. -/
noncomputable def vec3Norm (v : Vec3) : Vec3 := v / vec3Len v

/-- Model of std::clamp(v, lo, hi) for reals. -/
noncomputable def clampR (v lo hi : ℝ) : ℝ := min (max v lo) hi

/-- Row-major 3x3 real matrix, mirroring the rotation part of NiMatrix43. -/
structure Mat3 where
  r0 : Vec3
  r1 : Vec3
  r2 : Vec3

/-- First column of a matrix. -/
def Mat3.col0 (m : Mat3) : Vec3 := ⟨m.r0.x, m.r1.x, m.r2.x⟩

/-- Second column of a matrix. -/
def Mat3.col1 (m : Mat3) : Vec3 := ⟨m.r0.y, m.r1.y, m.r2.y⟩

/-- Third column of a matrix. -/
def Mat3.col2 (m : Mat3) : Vec3 := ⟨m.r0.z, m.r1.z, m.r2.z⟩

/-- Matrix transpose, mirroring NiMatrix43::Transpose. -/
def Mat3.transpose (m : Mat3) : Mat3 := ⟨m.col0, m.col1, m.col2⟩

instance : HMul Mat3 Vec3 Vec3 :=
  ⟨fun m v => ⟨vec3Dot m.r0 v, vec3Dot m.r1 v, vec3Dot m.r2 v⟩⟩

instance : HMul Mat3 Mat3 Mat3 :=
  ⟨fun a b =>
    ⟨⟨vec3Dot a.r0 b.col0, vec3Dot a.r0 b.col1, vec3Dot a.r0 b.col2⟩,
     ⟨vec3Dot a.r1 b.col0, vec3Dot a.r1 b.col1, vec3Dot a.r1 b.col2⟩,
     ⟨vec3Dot a.r2 b.col0, vec3Dot a.r2 b.col1, vec3Dot a.r2 b.col2⟩⟩⟩

instance : Add Mat3 := ⟨fun a b => ⟨a.r0 + b.r0, a.r1 + b.r1, a.r2 + b.r2⟩⟩

instance : HDiv Mat3 ℝ Mat3 := ⟨fun m c => ⟨m.r0 / c, m.r1 / c, m.r2 / c⟩⟩

/-- Identity rotation matrix. -/
def idMat : Mat3 := ⟨⟨1, 0, 0⟩, ⟨0, 1, 0⟩, ⟨0, 0, 1⟩⟩

/-- Position, rotation and uniform scale, mirroring NiTransform. -/
structure NiTransform where
  rot : Mat3
  pos : Vec3
  scale : ℝ

/-- World transform of a child from its parent's world transform and its own
local transform, following the propagation rules stated in Skeleton.cpp:
world pos = parent world pos + parent world rot * (local pos * parent world
scale); world rot = parent world rot * local rot. -/
noncomputable def composeT (par loc : NiTransform) : NiTransform :=
  ⟨par.rot * loc.rot, par.pos + par.rot * (loc.pos * par.scale), par.scale * loc.scale⟩

/-- Degrees to radians, mirroring degreesToRads of common/CommonUtils.h
(modelled from the spec: the file is not among the given sources). -/
noncomputable def degreesToRads (d : ℝ) : ℝ := d * (Real.pi / 180)

/-- Model of the C math function atan2f(y, x): the angle of the point (x, y),
in (-pi, pi].  Modelled from the spec (standard library semantics). -/
noncomputable def atan2 (y x : ℝ) : ℝ :=
  if 0 < x then Real.arctan (y / x)
  else if x < 0 ∧ 0 ≤ y then Real.arctan (y / x) + Real.pi
  else if x < 0 ∧ y < 0 then Real.arctan (y / x) - Real.pi
  else if x = 0 ∧ 0 < y then Real.pi / 2
  else if x = 0 ∧ y < 0 then -(Real.pi / 2)
  else 0

/-- Modelled from the spec: Matrix44::rotateVectorVec of common/Matrix.h (the
file is not among the given sources) — the rotation carrying the direction of
the first vector onto the direction of the second, in the trigonometry-free
Rodrigues form R = I + K + K*K / (1 + u.v), where u, v are the normalized
inputs and K is the cross-product matrix of u x v. -/
noncomputable def rotBetween (a b : Vec3) : Mat3 :=
  let u := vec3Norm a
  let v := vec3Norm b
  let w := vec3Cross u v
  let k : Mat3 := ⟨⟨0, -w.z, w.y⟩, ⟨w.z, 0, -w.x⟩, ⟨-w.y, w.x, 0⟩⟩
  idMat + k + (k * k) / (1 + vec3Dot u v)

/-! ### Flattened bone tree propagation (Skeleton::setHandPose, Skeleton::rotateLeg) -/

/-- One entry of the flattened bone tree (BSFlattenedBoneTree::transforms):
a local and a world transform, the parent's index in the array, and the
optional scene-graph reference node, modelled by the world transform the
propagation loop reads from it. -/
structure BoneEntry where
  loc : NiTransform
  world : NiTransform
  parPos : ℕ
  refNode : Option NiTransform

/-- Body of one iteration of the per-bone loop at the end of
Skeleton::setHandPose for the entry at index i.  fingerData i = some (r, p)
models the finger-bone branch that writes the blended hand-bone rotation and
the open-pose position into the local transform before the world transform is
recomputed; for a refNode entry the world transform is copied from the node,
otherwise it is propagated from the parent entry's world transform. -/
def stepEntry (fingerData : ℕ → Option (Mat3 × Vec3)) (f : ℕ → BoneEntry) (i : ℕ) :
    BoneEntry :=
  let e0 := f i
  let e1 := match fingerData i with
    | some rp => { e0 with loc := { e0.loc with rot := rp.1, pos := rp.2 } }
    | none => e0
  match e1.refNode with
  | some w => { e1 with world := w }
  | none =>
      let par := f e1.parPos
      { e1 with world :=
          ⟨par.world.rot * e1.loc.rot,
           par.world.pos + par.world.rot * (e1.loc.pos * par.world.scale),
           e1.world.scale⟩ }

/-- The state of the flattened tree after processing index i of the
setHandPose loop: only entry i changes. -/
def setHandPoseStep (fingerData : ℕ → Option (Mat3 × Vec3)) (f : ℕ → BoneEntry)
    (i : ℕ) : ℕ → BoneEntry :=
  fun j => if j = i then stepEntry fingerData f i else f j

/-- The setHandPose loop run over the first n entries, in index order. -/
def setHandPoseRun (fingerData : ℕ → Option (Mat3 × Vec3)) (f : ℕ → BoneEntry) :
    ℕ → (ℕ → BoneEntry)
  | 0 => f
  | n + 1 => setHandPoseStep fingerData (setHandPoseRun fingerData f n) n

/-- Skeleton::rotateLeg: multiply the local rotation of the entry at pos on
the right by an Euler rotation and recompute its world transform from its
parent entry.  eulerRot stands for the matrix built by
Matrix44::setEulerAngles(degreesToRads angle, 0, 0), whose source
(common/Matrix.h) is not among the given files. -/
def rotateLeg (eulerRot : Mat3) (f : ℕ → BoneEntry) (pos : ℕ) : ℕ → BoneEntry :=
  let t0 := f pos
  let locRot := t0.loc.rot * eulerRot
  let par := f t0.parPos
  let t1 : BoneEntry :=
    { t0 with
      loc := { t0.loc with rot := locRot }
      world := ⟨par.world.rot * locRot,
                par.world.pos + par.world.rot * (t0.loc.pos * par.world.scale),
                t0.world.scale⟩ }
  fun j => if j = pos then t1 else f j

/-! ### Two-bone law-of-cosines solving (Skeleton::setSingleLeg, Skeleton::setArms) -/

/-- Argument passed to acosf by the two-bone solvers:
(second^2 + dist^2 - primary^2) / (2 * second * dist), where primary is the
thigh/upper-arm length, second the calf/forearm length and dist the
hip-to-foot or shoulder-to-hand distance. -/
noncomputable def cosLawArg (second dist primary : ℝ) : ℝ :=
  (second * second + dist * dist - primary * primary) / (2 * second * dist)

/-- The condition under which acosf of cosLawArg evaluates to NaN in the C
code: the divisor vanishes (0/0 or division by zero giving NaN/Inf) or the
argument leaves the domain [-1, 1] of acosf. -/
def cosLawNaN (second dist primary : ℝ) : Prop :=
  2 * second * dist = 0 ∨ cosLawArg second dist primary < -1 ∨
    1 < cosLawArg second dist primary

instance (second dist primary : ℝ) : Decidable (cosLawNaN second dist primary) := by
  unfold cosLawNaN
  infer_instance

/-- Proportional stretch of the two segment lengths when the target distance
exceeds their sum, as in Skeleton::setSingleLeg lines 722-727 and
Skeleton::setArms lines 1144-1149 (plus a small 0.1 epsilon on each). -/
noncomputable def stretchSegments (primary second dist : ℝ) : ℝ × ℝ :=
  if dist > primary + second then
    let diff := dist - primary - second
    let ratio := second / (second + primary)
    (primary + (1 - ratio) * diff + 0.1, second + ratio * diff + 0.1)
  else (primary, second)

/-- The shared bend-angle solve of the leg and arm solvers: stretch the
segments if needed, take the law-of-cosines angle, and on a NaN/Inf result
substitute equal segments of the averaged original lengths and re-solve.
Returns (primary length, second length, bend angle). -/
noncomputable def solveTwoBone (primary second dist : ℝ) : ℝ × ℝ × ℝ :=
  let ps := stretchSegments primary second dist
  if cosLawNaN ps.2 dist ps.1 then
    let m := (primary + second) / 2
    (m, m, Real.arccos (cosLawArg m dist m))
  else (ps.1, ps.2, Real.arccos (cosLawArg ps.2 dist ps.1))

/-- The node data Skeleton::setSingleLeg reads at entry: the hip's parent
world rotation, the hip local and world transforms, the knee local transform
and world scale, and the foot local transform. -/
structure LegNodes where
  hipParentWorldRot : Mat3
  hipLoc : NiTransform
  hipWorld : NiTransform
  kneeLoc : NiTransform
  kneeWorldScale : ℝ
  footLoc : NiTransform

/-- The transforms Skeleton::setSingleLeg writes: the hip and knee local
rotations and the knee and foot local positions. -/
structure LegResult where
  hipLocRot : Mat3
  kneeLocRot : Mat3
  kneeLocPos : Vec3
  footLocPos : Vec3

/-- Skeleton::setSingleLeg: the two-bone analytic leg solve, transcribed from
lines 694-770.  rvv stands for Matrix44::rotateVectorVec (common/Matrix.h is
not among the given sources), kept abstract because no conclusion below
depends on its entries. -/
noncomputable def setSingleLeg (rvv : Vec3 → Vec3 → Mat3) (inPowerArmor isLeft : Bool)
    (footPos : Vec3) (n : LegNodes) : LegResult :=
  let hipPos := n.hipWorld.pos
  let footToHip := n.hipWorld.pos - footPos
  let rotV : Vec3 := if inPowerArmor then ⟨0, 0, if isLeft then 1 else -1⟩ else ⟨0, 1, 0⟩
  let hipDir := n.hipWorld.rot * rotV
  let xDir := vec3Norm footToHip
  let yDir := vec3Norm (hipDir - xDir * vec3Dot hipDir xDir)
  let thighLenOrig := vec3Len n.kneeLoc.pos
  let calfLenOrig := vec3Len n.footLoc.pos
  let ftLen := max (vec3Len footToHip) 0.1
  let sol := solveTwoBone thighLenOrig calfLenOrig ftLen
  let calfLen := sol.2.1
  let footAngle := sol.2.2
  let xDist := Real.cos footAngle * calfLen
  let yDist := Real.sin footAngle * calfLen
  let kneePos := footPos + xDir * xDist + yDir * yDist
  let uLocalDir := (n.hipWorld.rot.transpose * vec3Norm (kneePos - hipPos)) / n.hipWorld.scale
  let hipLocRot := n.hipLoc.rot * rvv uLocalDir n.kneeLoc.pos
  let hipWR := n.hipParentWorldRot * hipLocRot
  let uLocalDir2 :=
    ((hipWR * n.kneeLoc.rot).transpose * vec3Norm (footPos - kneePos)) / n.kneeWorldScale
  let kneeLocRot := n.kneeLoc.rot * rvv uLocalDir2 n.footLoc.pos
  let calfWR2 := hipWR * kneeLocRot
  let kneeLocPosRaw := (hipWR.transpose * (kneePos - hipPos)) / n.hipWorld.scale
  let kneeLocPos := if vec3Len kneeLocPosRaw > thighLenOrig
    then vec3Norm kneeLocPosRaw * thighLenOrig else kneeLocPosRaw
  let footLocPosRaw := (calfWR2.transpose * (footPos - kneePos)) / n.kneeWorldScale
  let footLocPos := if vec3Len footLocPosRaw > calfLenOrig
    then vec3Norm footLocPosRaw * calfLenOrig else footLocPosRaw
  ⟨hipLocRot, kneeLocRot, kneeLocPos, footLocPos⟩

/-! ### Arm solver entry guards and shoulder shrug (Skeleton::setArms) -/

/-- Classification of a tracked float input: a finite real value, or a NaN
or infinity from a controller losing tracking. -/
inductive FFloat where
  | fin : ℝ → FFloat
  | nonfinite : FFloat

/-- Whether the value would pass the isnan/isinf checks of the C code. -/
def FFloat.isFinite : FFloat → Bool
  | .fin _ => true
  | .nonfinite => false

/-- The real value of a finite input; junk 0 for a non-finite one, which the
code never reads because the guard returns first. -/
def FFloat.val : FFloat → ℝ
  | .fin r => r
  | .nonfinite => 0

/-- How Skeleton::setArms returned from its entry section. -/
inductive ArmAbort where
  | invalidHand
  | tooFar
  | solve

/-- The local transforms of one arm chain as the per-frame restore step set
them: collarbone (shoulder), upper arm, the three forearm segments and the
hand. -/
structure ArmChainState where
  shoulder : NiTransform
  upper : NiTransform
  forearm1 : NiTransform
  forearm2 : NiTransform
  forearm3 : NiTransform
  hand : NiTransform

/-- The per-frame inputs Skeleton::setArms reads before the elbow solve: the
collarbone parent's world transform, the first-person hand position (possibly
non-finite) and rotation, the configured arm length and the power-armor
flag. -/
structure ArmInputs where
  shoulderParentWorld : NiTransform
  handPosX : FFloat
  handPosY : FFloat
  handPosZ : FFloat
  handRot : Mat3
  armLengthConfig : ℝ
  inPowerArmor : Bool

/-- The entry section of Skeleton::setArms (lines 1073-1149): the
NaN/Inf-or-200-unit guard, the shoulder-shrug clavicle rotation with its
updateDown, and the 2.25x-arm-length guard.  Returns the arm-chain state as
left by the section and which way the function returned.  World transforms
are derived from the parent world and the chain's local transforms. -/
noncomputable def setArmsGuard (rvv : Vec3 → Vec3 → Mat3) (inp : ArmInputs)
    (st : ArmChainState) : ArmChainState × ArmAbort :=
  let handPos : Vec3 := ⟨inp.handPosX.val, inp.handPosY.val, inp.handPosZ.val⟩
  let shoulderWorld0 := composeT inp.shoulderParentWorld st.shoulder
  let upperWorld0 := composeT shoulderWorld0 st.upper
  if ¬(inp.handPosX.isFinite ∧ inp.handPosY.isFinite ∧ inp.handPosZ.isFinite) ∨
      vec3Len (upperWorld0.pos - handPos) > 200 then (st, ArmAbort.invalidHand)
  else
    let adjustedArmLength := inp.armLengthConfig / 36.74
    let shoulderToHand := handPos - upperWorld0.pos
    let armLength := inp.armLengthConfig
    let adjustAmount :=
      clampR (vec3Len shoulderToHand - armLength * 0.5) 0 (armLength * 0.85) /
        (armLength * 0.85)
    let shoulderOffset := vec3Norm shoulderToHand * (adjustAmount * armLength * 0.08)
    let clavicalToNewShoulder := upperWorld0.pos + shoulderOffset - shoulderWorld0.pos
    let sLocalDir := (shoulderWorld0.rot.transpose * clavicalToNewShoulder) / shoulderWorld0.scale
    let st1 : ArmChainState := { st with shoulder :=
      { st.shoulder with rot := st.shoulder.rot * rvv sLocalDir ⟨1, 0, 0⟩ } }
    let upperWorld1 := composeT (composeT inp.shoulderParentWorld st1.shoulder) st1.upper
    let originalUpperLen := vec3Len st1.forearm1.pos
    let originalForearmLen := if inp.inPowerArmor then vec3Len st1.hand.pos
      else vec3Len st1.hand.pos + vec3Len st1.forearm2.pos + vec3Len st1.forearm3.pos
    let upperLen := originalUpperLen * adjustedArmLength
    let forearmLen := originalForearmLen * adjustedArmLength
    let hsLen := max (vec3Len (upperWorld1.pos - handPos)) 0.1
    if hsLen > (upperLen + forearmLen) * 2.25 then (st1, ArmAbort.tooFar)
    else (st1, ArmAbort.solve)

/-- The raw blended twist angle of Skeleton::setArms lines 1154-1167: the two
arcsine candidates from the hand's back and side vectors, blended by the
clamped interpolation factor. -/
noncomputable def blendedTwistAngle (handRot : Mat3) : ℝ :=
  let handBack := handRot * (⟨-1, 0, 0⟩ : Vec3)
  let twistAngle := Real.arcsin (clampR handBack.z (-0.999) 0.999)
  let handSide := handRot * (⟨0, -1, 0⟩ : Vec3)
  let twistAngle2 := -1 * Real.arcsin (clampR handSide.z (-0.599) 0.999)
  let interpTwist := clampR ((handBack.z + 0.866) * 1.155) 0.45 0.8
  twistAngle + interpTwist * (twistAngle2 - twistAngle)

/-- The twist-angle smoothing of Skeleton::setArms lines 1175-1178: the
per-side static previous angle is moved a quarter of the way toward the raw
blended angle; the moved value is both used this frame and stored.  Returns
(angle used this frame, updated per-side store). -/
noncomputable def smoothTwistStep (prevAngle : Bool → ℝ) (isLeft : Bool)
    (rawTwist : ℝ) : ℝ × (Bool → ℝ) :=
  let t := prevAngle isLeft + (rawTwist - prevAngle isLeft) * 0.25
  (t, fun side => if side = isLeft then t else prevAngle side)

/-! ### Walk cycle (Skeleton::walk) -/

/-- The cross-frame state of Skeleton::walk, including the function-local
static spineAngle and the spine bone's local rotation it feeds. -/
structure WalkState where
  walkingState : ℕ
  prevSpeed : ℝ
  footStepping : ℕ
  stepDir : Vec3
  stepTimeinStep : ℝ
  currentStepTime : ℝ
  delayFrame : ℕ
  leftFootTarget : Vec3
  leftFootStart : Vec3
  leftFootPos : Vec3
  rightFootTarget : Vec3
  rightFootStart : Vec3
  rightFootPos : Vec3
  spineAngle : ℝ
  spineLocRot : Mat3

/-- The per-frame inputs of Skeleton::walk.  nodesFound models whether the
six leg-node lookups succeeded; randFoot the value of rand() % 2 + 1;
spineEuler a stands for the matrix setEulerAngles(degreesToRads a, 0, 0)
builds (common/Matrix.h is not among the given sources). -/
structure WalkInputs where
  nodesFound : Bool
  lastPosition : Vec3
  curentPosition : Vec3
  frameTime : ℝ
  lFootWorld : Vec3
  rFootWorld : Vec3
  rootWorldZ : ℝ
  inPowerArmor : Bool
  isJumpingOrInAir : Bool
  randFoot : ℕ
  spineEuler : ℝ → Mat3

/-- The state-transition section of Skeleton::walk (lines 523-597): the
deceleration check that enters Redirecting, the prevSpeed store, and the
switch over the walking state, with the jumping override. -/
noncomputable def walkSwitch (inp : WalkInputs) (lFootPosW rFootPosW : Vec3)
    (dir : Vec3) (curSpeed stepTime : ℝ) (s : WalkState) : WalkState :=
  let s0 := if curSpeed - s.prevSpeed < -20 then { s with walkingState := 3 } else s
  let s1 : WalkState := { s0 with prevSpeed := curSpeed }
  if inp.isJumpingOrInAir then { s1 with walkingState := 0 }
  else if s1.walkingState = 0 then
    if curSpeed ≥ 35 then
      let sA : WalkState := { s1 with
        walkingState := 1
        footStepping := inp.randFoot
        stepDir := dir
        stepTimeinStep := stepTime
        delayFrame := 2 }
      let sB := if inp.randFoot = 1 then
          { sA with
            rightFootTarget := rFootPosW + dir * (curSpeed * stepTime * 1.5)
            rightFootStart := rFootPosW
            leftFootTarget := lFootPosW
            leftFootStart := lFootPosW
            leftFootPos := lFootPosW
            rightFootPos := rFootPosW }
        else
          { sA with
            rightFootTarget := rFootPosW
            rightFootStart := rFootPosW
            leftFootTarget := lFootPosW + dir * (curSpeed * stepTime * 1.5)
            leftFootStart := lFootPosW
            leftFootPos := lFootPosW
            rightFootPos := rFootPosW }
      { sB with currentStepTime := stepTime / 2 }
    else { s1 with
      currentStepTime := 0
      footStepping := 0
      spineAngle := 0 }
  else if s1.walkingState = 1 then
    if curSpeed < 20 then { s1 with
      walkingState := 2
      currentStepTime := 0 } else s1
  else if s1.walkingState = 2 then
    if curSpeed ≥ 20 then { s1 with
      walkingState := 1
      currentStepTime := 0 } else s1
  else if s1.walkingState = 3 then
    let sB := if s1.footStepping = 1 then
        { s1 with
          stepDir := dir
          rightFootTarget := rFootPosW + dir * (curSpeed * stepTime * 0.1) }
      else
        { s1 with
          stepDir := dir
          leftFootTarget := lFootPosW + dir * (curSpeed * stepTime * 0.1) }
    { sB with walkingState := 1 }
  else { s1 with walkingState := 0 }

/-- The foot-placement section of Skeleton::walk that follows the switch
(lines 599-691): ground lock when idle, the in-flight step interpolation with
vertical lift, spine counter-rotation and side swap when walking, and the
Stopping-to-Idle conversion. -/
noncomputable def walkTail (inp : WalkInputs) (lFootPosW rFootPosW : Vec3)
    (dir : Vec3) (curSpeed stepTime : ℝ) (s : WalkState) : WalkState :=
  if s.walkingState = 0 then
    { s with leftFootPos := ⟨lFootPosW.x, lFootPosW.y, inp.rootWorldZ⟩,
             rightFootPos := ⟨rFootPosW.x, rFootPosW.y, inp.rootWorldZ⟩ }
  else if s.walkingState = 1 then
    let dirOffset := (dir - s.stepDir) * min (curSpeed * stepTime * 1.5) 140
    let dd := vec3Dot dir s.stepDir
    let scale := min (curSpeed * stepTime * 1.5) 140
    let currentStepTime := s.currentStepTime + inp.frameTime
    let frameStep := inp.frameTime / s.stepTimeinStep
    let interp := clampR (frameStep * (currentStepTime / inp.frameTime)) 0 1
    let sR :=
      if s.footStepping = 1 then
        let s2 :=
          if dd < 0.9 then
            if s.delayFrame = 0 then
              { s with
                rightFootTarget := s.rightFootTarget + dirOffset
                stepDir := dir
                delayFrame := 2 }
            else { s with delayFrame := s.delayFrame - 1 }
          else { s with delayFrame := if s.delayFrame = 2 then 2 else s.delayFrame + 1 }
        let tgt : Vec3 := ⟨s2.rightFootTarget.x, s2.rightFootTarget.y, inp.rootWorldZ⟩
        let st : Vec3 := ⟨s2.rightFootStart.x, s2.rightFootStart.y, inp.rootWorldZ⟩
        let fp := st + (tgt - st) * interp
        let stepAmount := clampR (vec3Len (tgt - st) / 150) 0 1
        let stepHeight := max (stepAmount * 9) 1
        let up := Real.sin (interp * Real.pi) * stepHeight
        { s2 with
          rightFootTarget := tgt
          rightFootStart := st
          rightFootPos := ⟨fp.x, fp.y, fp.z + up⟩
          spineAngle := -1 * Real.sin (interp * Real.pi) * 3 }
      else
        let s2 :=
          if dd < 0.9 then
            if s.delayFrame = 0 then
              { s with
                leftFootTarget := s.leftFootTarget + dirOffset
                stepDir := dir
                delayFrame := 2 }
            else { s with delayFrame := s.delayFrame - 1 }
          else { s with delayFrame := if s.delayFrame = 2 then 2 else s.delayFrame + 1 }
        let tgt : Vec3 := ⟨s2.leftFootTarget.x, s2.leftFootTarget.y, inp.rootWorldZ⟩
        let st : Vec3 := ⟨s2.leftFootStart.x, s2.leftFootStart.y, inp.rootWorldZ⟩
        let fp := st + (tgt - st) * interp
        let stepAmount := clampR (vec3Len (tgt - st) / 150) 0 1
        let stepHeight := max (stepAmount * 9) 1
        let up := Real.sin (interp * Real.pi) * stepHeight
        { s2 with
          leftFootTarget := tgt
          leftFootStart := st
          leftFootPos := ⟨fp.x, fp.y, fp.z + up⟩
          spineAngle := 1 * Real.sin (interp * Real.pi) * 3 }
    let sR2 : WalkState := { sR with
      currentStepTime := currentStepTime
      spineLocRot := sR.spineLocRot * inp.spineEuler sR.spineAngle }
    if currentStepTime > stepTime then
      let sS : WalkState := { sR2 with
        currentStepTime := 0
        stepDir := dir
        stepTimeinStep := stepTime }
      if sS.footStepping = 1 then
        { sS with
          footStepping := 2
          leftFootTarget := lFootPosW + dir * scale
          leftFootStart := sS.leftFootPos }
      else
        { sS with
          footStepping := 1
          rightFootTarget := rFootPosW + dir * scale
          rightFootStart := sS.rightFootPos }
    else sR2
  else if s.walkingState = 2 then
    { s with
      walkingState := 0
      leftFootPos := lFootPosW
      rightFootPos := rFootPosW }
  else s

/-- Skeleton::walk, transcribed from lines 483-691: the early return when the
leg nodes are missing, the feet-closer adjustment, the speed and step-time
computation, then the state switch and the foot-placement tail. -/
noncomputable def walkFrame (inp : WalkInputs) (s : WalkState) : WalkState :=
  if inp.nodesFound = false then s
  else
    let leftToRight := if inp.inPowerArmor then (inp.rFootWorld - inp.lFootWorld) * ((-0.15 : ℝ))
      else (inp.rFootWorld - inp.lFootWorld) * ((0.3 : ℝ))
    let lFootPosW := inp.lFootWorld + leftToRight
    let rFootPosW := inp.rFootWorld - leftToRight
    let curPos : Vec3 := ⟨inp.curentPosition.x, inp.curentPosition.y, 0⟩
    let lastPos : Vec3 := ⟨inp.lastPosition.x, inp.lastPosition.y, 0⟩
    let dirRaw := curPos - lastPos
    let curSpeed0 := clampR (|vec3Len dirRaw| / inp.frameTime) 0 350
    let curSpeed := if s.prevSpeed > 20 then (curSpeed0 + s.prevSpeed) / 2 else curSpeed0
    let stepTime := clampR (Real.cos (curSpeed / 140)) 0.28 0.5
    let dir := vec3Norm dirRaw
    walkTail inp lFootPosW rFootPosW dir curSpeed stepTime
      (walkSwitch inp lFootPosW rFootPosW dir curSpeed stepTime s)

/-! ### Neck yaw (Skeleton::getNeckYaw) -/

/-- The inputs Skeleton::getNeckYaw reads: the player-nodes presence flag,
the upright HMD world position, both controller world positions, and the HMD
node's world rotation and local position. -/
structure NeckYawInputs where
  playerNodesPresent : Bool
  uprightHmdPos : Vec3
  secondaryWandPos : Vec3
  primaryWandPos : Vec3
  hmdWorldRot : Mat3
  hmdLocalPos : Vec3

/-- The candidate yaw angle and the attenuation weight computed by
Skeleton::getNeckYaw (lines 294-329): height and hand-crossing attenuation of
the weight, the summed head-to-hand direction in head-local space, the two
arctangent candidates and the pitch-based selection between them. -/
noncomputable def neckYawCore (inp : NeckYawInputs) : ℝ × ℝ :=
  let pos := inp.uprightHmdPos
  let hmdToLeft := inp.secondaryWandPos - pos
  let hmdToRight := inp.primaryWandPos - pos
  let w1 := if 0 < hmdToLeft.z then max (1 - 0.05 * hmdToLeft.z) 0 else 1
  let w2 := if 0 < hmdToRight.z then max (w1 - 0.05 * hmdToRight.z) 0 else w1
  let locLeft := inp.hmdWorldRot.transpose * hmdToLeft
  let locRight := inp.hmdWorldRot.transpose * hmdToRight
  let weight := if locRight.x < locLeft.x then max (w2 + 0.02 * (locRight.x - locLeft.x)) 0
    else w2
  let sum := hmdToRight + hmdToLeft
  let forwardDir := vec3Norm (inp.hmdWorldRot.transpose * vec3Norm sum)
  let hmdForwardDir := vec3Norm (inp.hmdWorldRot.transpose * inp.hmdLocalPos)
  let anglePrime := atan2 forwardDir.x forwardDir.y
  let angleSec := atan2 forwardDir.x forwardDir.z
  let pitchDiff := atan2 hmdForwardDir.y hmdForwardDir.z - atan2 forwardDir.z forwardDir.y
  (if degreesToRads 80 < |pitchDiff| then angleSec else anglePrime, weight)

/-- Skeleton::getNeckYaw (lines 285-331): 0 when the player nodes are absent
or either head-to-controller vector is shorter than 10 units; otherwise the
negated candidate angle scaled by the weight and clamped to 50 degrees
either way. -/
noncomputable def getNeckYaw (inp : NeckYawInputs) : ℝ :=
  if inp.playerNodesPresent = false then 0
  else
    let hmdToLeft := inp.secondaryWandPos - inp.uprightHmdPos
    let hmdToRight := inp.primaryWandPos - inp.uprightHmdPos
    if vec3Len hmdToLeft < 10 ∨ vec3Len hmdToRight < 10 then 0
    else
      clampR (-(neckYawCore inp).1 * (neckYawCore inp).2)
        (degreesToRads (-50)) (degreesToRads 50)

/-! ### Hand pose selection (Skeleton::calculateHandPose) -/

/-- Substring containment on character lists, modelling
std::string::find(sub) != npos. -/
def containsSub (sub s : List Char) : Bool :=
  (List.range (s.length + 1)).any fun i => (s.drop i).take sub.length == sub

/-- Quaternion record; default construction in the C code is modelled by the
explicit qt0 argument of calculateHandPoseTarget, which the selection leaves
untouched on the branch Claim 10 describes. -/
structure Quat where
  qw : ℝ
  qx : ℝ
  qy : ℝ
  qz : ℝ

/-- The per-hand tables Skeleton::calculateHandPose consults: the papyrus
override channel, the open and closed bind poses, the per-bone closed flag,
and the per-bone mapped button with the grip button id. -/
structure HandPoseEnv where
  papyrusHasControl : String → Bool
  papyrusPose : String → ℝ
  handOpenRot : String → Mat3
  handClosedRot : String → Mat3
  closedHand : String → Bool
  handBonesButton : String → ℕ
  gripButtonId : ℕ

/-- The blend-target selection of Skeleton::calculateHandPose (lines
1380-1416), transcribed branch for branch.  fromRot models
Quaternion::fromRot, slerpQ t q target models q.slerp(t, target), and
eulerAngles the matrix built by Matrix44::setEulerAngles — all from
common/Matrix.h, which is not among the given sources.  qt0 is the
default-constructed quaternion the selection starts from. -/
noncomputable def calculateHandPoseTarget (env : HandPoseEnv)
    (fromRot : Mat3 → Quat) (slerpQ : ℝ → Quat → Quat → Quat)
    (eulerAngles : ℝ → ℝ → ℝ → Mat3) (qt0 : Quat)
    (bone : String) (gripProx : ℝ) (thumbUp isLeft : Bool) : Quat :=
  let sign : ℝ := if isLeft then -1 else 1
  if env.papyrusHasControl bone then
    slerpQ (clampR (env.papyrusPose bone) 0 1)
      (fromRot (env.handClosedRot bone)) (fromRot (env.handOpenRot bone))
  else if thumbUp ∧ containsSub ("Finger1").toList bone.toList then
    if containsSub ("Finger11").toList bone.toList then
      fromRot (env.handOpenRot bone * eulerAngles (sign * 0.5) (sign * 0.4) (-0.3))
    else if containsSub ("Finger13").toList bone.toList then
      fromRot (env.handOpenRot bone * eulerAngles 0 0 (degreesToRads (-35)))
    else qt0
  else if env.closedHand bone then fromRot (env.handClosedRot bone)
  else if env.handBonesButton bone = env.gripButtonId then
    slerpQ (1 - gripProx) (fromRot (env.handClosedRot bone)) (fromRot (env.handOpenRot bone))
  else fromRot (env.handOpenRot bone)

/-- The final blend of Skeleton::calculateHandPose (lines 1418-1421): the
current hand-bone rotation is spherically interpolated toward the selected
target at rate clamp(frameTime * 7, 0, 1).  toRot models
Quaternion::getRot().make43(). -/
noncomputable def calculateHandPose (env : HandPoseEnv)
    (fromRot : Mat3 → Quat) (slerpQ : ℝ → Quat → Quat → Quat) (toRot : Quat → Mat3)
    (eulerAngles : ℝ → ℝ → ℝ → Mat3) (qt0 : Quat) (curRot : Mat3) (frameTime : ℝ)
    (bone : String) (gripProx : ℝ) (thumbUp isLeft : Bool) : Mat3 :=
  let qt := calculateHandPoseTarget env fromRot slerpQ eulerAngles qt0 bone gripProx
    thumbUp isLeft
  toRot (slerpQ (clampR (frameTime * 7) 0 1) (fromRot curRot) qt)

/-! ## Helper lemmas -/

/-- Unfolding of vector addition. -/
theorem vec3_add_def (a b : Vec3) : a + b = ⟨a.x + b.x, a.y + b.y, a.z + b.z⟩ := rfl

/-- Unfolding of vector subtraction. -/
theorem vec3_sub_def (a b : Vec3) : a - b = ⟨a.x - b.x, a.y - b.y, a.z - b.z⟩ := rfl

/-- Unfolding of vector-scalar multiplication. -/
theorem vec3_smul_def (a : Vec3) (c : ℝ) : a * c = ⟨a.x * c, a.y * c, a.z * c⟩ := rfl

/-- Unfolding of vector-scalar division. -/
theorem vec3_sdiv_def (a : Vec3) (c : ℝ) : a / c = ⟨a.x / c, a.y / c, a.z / c⟩ := rfl

/-- Unfolding of matrix-vector multiplication. -/
theorem mat3_vec_def (m : Mat3) (v : Vec3) :
    m * v = ⟨vec3Dot m.r0 v, vec3Dot m.r1 v, vec3Dot m.r2 v⟩ := rfl

/-- Unfolding of matrix-matrix multiplication. -/
theorem mat3_mul_def (a b : Mat3) :
    a * b = ⟨⟨vec3Dot a.r0 b.col0, vec3Dot a.r0 b.col1, vec3Dot a.r0 b.col2⟩,
             ⟨vec3Dot a.r1 b.col0, vec3Dot a.r1 b.col1, vec3Dot a.r1 b.col2⟩,
             ⟨vec3Dot a.r2 b.col0, vec3Dot a.r2 b.col1, vec3Dot a.r2 b.col2⟩⟩ := rfl

/-- Unfolding of matrix addition. -/
theorem mat3_add_def (a b : Mat3) : a + b = ⟨a.r0 + b.r0, a.r1 + b.r1, a.r2 + b.r2⟩ := rfl

/-- Unfolding of matrix-scalar division. -/
theorem mat3_div_def (m : Mat3) (c : ℝ) : m / c = ⟨m.r0 / c, m.r1 / c, m.r2 / c⟩ := rfl

/-- Length of a vector of known square sum. -/
theorem vec3Len_mk (x y z L : ℝ) (hL : 0 ≤ L) (h : x ^ 2 + y ^ 2 + z ^ 2 = L ^ 2) :
    vec3Len ⟨x, y, z⟩ = L := by
  show Real.sqrt (x ^ 2 + y ^ 2 + z ^ 2) = L
  rw [h, Real.sqrt_sq hL]

/-- Normalization of a vector of known positive length. -/
theorem vec3Norm_mk (x y z L : ℝ) (hL : 0 < L) (h : x ^ 2 + y ^ 2 + z ^ 2 = L ^ 2) :
    vec3Norm ⟨x, y, z⟩ = ⟨x / L, y / L, z / L⟩ := by
  rw [vec3Norm, vec3Len_mk x y z L hL.le h]
  rfl

/-- Value of the clamp when the input is inside the interval. -/
theorem clampR_of_mem {v lo hi : ℝ} (h1 : lo ≤ v) (h2 : v ≤ hi) : clampR v lo hi = v := by
  rw [clampR, max_eq_left h1, min_eq_left h2]

/-- Value of the clamp at or below the lower bound. -/
theorem clampR_of_le_lo {v lo hi : ℝ} (h1 : v ≤ lo) (h2 : lo ≤ hi) : clampR v lo hi = lo := by
  rw [clampR, max_eq_right h1, min_eq_left h2]

/-- Value of the clamp at or above the upper bound. -/
theorem clampR_of_hi_le {v lo hi : ℝ} (h1 : hi ≤ v) (h2 : lo ≤ hi) : clampR v lo hi = hi := by
  rw [clampR, min_eq_right (h1.trans (le_max_left v lo))]

/-- The clamp lands in the target interval. -/
theorem clampR_mem (v : ℝ) {lo hi : ℝ} (h : lo ≤ hi) :
    lo ≤ clampR v lo hi ∧ clampR v lo hi ≤ hi :=
  ⟨le_min (le_max_right v lo) h, min_le_right _ _⟩

/-! ## Claim C5 -/

/-- Claim C5 (confirmed): in setArms, for each arm side independently, the
smoothed twist angle used this frame and the value stored for the next frame
both equal A + 0.25 * (T - A), where T is this frame's blended raw twist
angle and A the previous frame's smoothed angle for that side; the other
side's stored angle is untouched. -/
theorem c5_twist_smoothing (A : Bool → ℝ) (side : Bool) (T : ℝ) :
    (smoothTwistStep A side T).1 = A side + 0.25 * (T - A side) ∧
    (smoothTwistStep A side T).2 side = A side + 0.25 * (T - A side) ∧
    ∀ other : Bool, other ≠ side → (smoothTwistStep A side T).2 other = A other := by
  refine ⟨?_, ?_, ?_⟩
  · show A side + (T - A side) * 0.25 = A side + 0.25 * (T - A side)
    ring
  · show (if side = side then A side + (T - A side) * 0.25 else A side)
        = A side + 0.25 * (T - A side)
    rw [if_pos rfl]
    ring
  · intro other h
    show (if other = side then A side + (T - A side) * 0.25 else A other) = A other
    rw [if_neg h]

/-! ## Claim C10 -/

/-- Claim C10 (confirmed): in calculateHandPose, with the thumbs-up
combination active, no papyrus override on the bone, and a bone name
containing Finger1 but neither Finger11 nor Finger13, the blend target is
left as the default-constructed quaternion, not derived from any pose. -/
theorem c10_thumb_middle_default (env : HandPoseEnv) (fromRot : Mat3 → Quat)
    (slerpQ : ℝ → Quat → Quat → Quat) (eulerAngles : ℝ → ℝ → ℝ → Mat3) (qt0 : Quat)
    (bone : String) (gripProx : ℝ) (isLeft : Bool)
    (hpap : env.papyrusHasControl bone = false)
    (h1 : containsSub ("Finger1").toList bone.toList = true)
    (h11 : containsSub ("Finger11").toList bone.toList = false)
    (h13 : containsSub ("Finger13").toList bone.toList = false) :
    calculateHandPoseTarget env fromRot slerpQ eulerAngles qt0 bone gripProx true isLeft
      = qt0 := by
  simp only [calculateHandPoseTarget, hpap, h1, h11, h13]
  simp

/-- Witness for Claim C10 at the concrete left-hand middle thumb bone
LArm_Finger12 with trivial tables. -/
theorem c10_thumb_middle_default_witness :
    calculateHandPoseTarget
      ⟨fun _ => false, fun _ => 0, fun _ => idMat, fun _ => idMat,
        fun _ => false, fun _ => 0, 2⟩
      (fun _ => ⟨1, 0, 0, 0⟩) (fun _ q _ => q) (fun _ _ _ => idMat) ⟨1, 0, 0, 0⟩
      ("LArm_Finger12") 0 true false = ⟨1, 0, 0, 0⟩ :=
  c10_thumb_middle_default _ _ _ _ _ _ _ _ rfl (by decide) (by decide) (by decide)

/-! ## Claim C2 -/

/-- Length of the clamp-to-bind-length step of Skeleton::setSingleLeg: the
result never exceeds the (nonnegative) bound. -/
theorem clampLen_le (v : Vec3) (L : ℝ) (hL : 0 ≤ L) :
    vec3Len (if vec3Len v > L then vec3Norm v * L else v) ≤ L := by
  split_ifs with h
  · have hlen : 0 < vec3Len v := lt_of_le_of_lt hL h
    show Real.sqrt ((v.x / vec3Len v * L) ^ 2 + (v.y / vec3Len v * L) ^ 2 +
      (v.z / vec3Len v * L) ^ 2) ≤ L
    have hsum : (v.x / vec3Len v * L) ^ 2 + (v.y / vec3Len v * L) ^ 2 +
        (v.z / vec3Len v * L) ^ 2 = (L / vec3Len v) ^ 2 * (v.x ^ 2 + v.y ^ 2 + v.z ^ 2) := by
      ring
    have hq : 0 ≤ L / vec3Len v := div_nonneg hL hlen.le
    have hv : Real.sqrt (v.x ^ 2 + v.y ^ 2 + v.z ^ 2) = vec3Len v := rfl
    rw [hsum, Real.sqrt_mul (sq_nonneg _), Real.sqrt_sq hq, hv,
      div_mul_cancel₀ L hlen.ne']
  · exact not_lt.mp h

/-- Claim C2 (confirmed): for every call of setSingleLeg — in particular when
the foot target is farther from the hip than the bind thigh plus calf length,
so the solver stretched the segments — the local position magnitudes written
to the knee and foot bones never exceed the bind thigh and calf lengths. -/
theorem c2_leg_clamp_bound (rvv : Vec3 → Vec3 → Mat3) (inPowerArmor isLeft : Bool)
    (footPos : Vec3) (n : LegNodes) :
    vec3Len (setSingleLeg rvv inPowerArmor isLeft footPos n).kneeLocPos
        ≤ vec3Len n.kneeLoc.pos ∧
    vec3Len (setSingleLeg rvv inPowerArmor isLeft footPos n).footLocPos
        ≤ vec3Len n.footLoc.pos :=
  ⟨clampLen_le _ _ (Real.sqrt_nonneg _), clampLen_le _ _ (Real.sqrt_nonneg _)⟩

/-! ## Claim C4 -/

/-- Membership of the law-of-cosines argument in the acos domain from the
triangle inequalities on the three lengths. -/
theorem cosLawArg_in_domain (s f p : ℝ) (hs : 0 < s) (hf : 0 < f) (h1 : p ≤ s + f)
    (h2 : s - f ≤ p) (h3 : f - s ≤ p) : ¬ cosLawNaN s f p := by
  have hden : 0 < 2 * s * f := by positivity
  intro hnan
  rcases hnan with h0 | hlt | hgt1
  · exact hden.ne' h0
  · rw [cosLawArg, div_lt_iff₀ hden] at hlt
    nlinarith [mul_nonneg (show (0:ℝ) ≤ s + f - p by linarith)
      (show (0:ℝ) ≤ s + f + p by linarith), hlt]
  · rw [cosLawArg, lt_div_iff₀ hden] at hgt1
    nlinarith [mul_nonneg (show (0:ℝ) ≤ p - (s - f) by linarith)
      (show (0:ℝ) ≤ p + (s - f) by linarith), hgt1]

/-- After the proportional stretch of the two-bone solvers the law-of-cosines
argument is always in the acos domain and its divisor nonzero: the NaN
fallback can only be entered from the unstretched case. -/
theorem stretchSegments_not_nan (p0 s0 f : ℝ) (hp : 0 ≤ p0) (hs : 0 ≤ s0)
    (hf : 0.1 ≤ f) (hgt : f > p0 + s0) :
    ¬ cosLawNaN (stretchSegments p0 s0 f).2 f (stretchSegments p0 s0 f).1 := by
  have hstretch : stretchSegments p0 s0 f =
      (p0 + (1 - s0 / (s0 + p0)) * (f - p0 - s0) + 0.1,
       s0 + s0 / (s0 + p0) * (f - p0 - s0) + 0.1) := by
    rw [stretchSegments, if_pos hgt]
  rw [hstretch]
  set r := s0 / (s0 + p0) with hr
  have hd0 : 0 < f - p0 - s0 := by linarith
  have hr0 : 0 ≤ r := div_nonneg hs (by linarith)
  have hr1 : r ≤ 1 := div_le_one_of_le₀ (by linarith) (by linarith)
  set p := p0 + (1 - r) * (f - p0 - s0) + 0.1 with hp1
  set s := s0 + r * (f - p0 - s0) + 0.1 with hs1
  have hs01 : 0.1 ≤ s := by
    have : 0 ≤ r * (f - p0 - s0) := mul_nonneg hr0 hd0.le
    simp only [hs1]; linarith
  have hsum : p + s = f + 0.2 := by simp only [hp1, hs1]; ring
  have hsle : s ≤ f + 0.1 := by
    have h1 : r * (f - p0 - s0) ≤ 1 * (f - p0 - s0) :=
      mul_le_mul_of_nonneg_right hr1 hd0.le
    simp only [hs1]; linarith
  clear_value s p r
  exact cosLawArg_in_domain s f p (by linarith) (by linarith)
    (by linarith) (by linarith) (by linarith)

/-- Claim C4 (confirmed): whenever the law-of-cosines angle of setSingleLeg
or setArms evaluates to NaN/Inf — the argument left the acos domain or its
divisor vanished — the solver re-solves with both segments set to the average
of the two original lengths, and the re-solved argument is in [-1, 1] with a
nonzero divisor, so the fallback angle is a finite real.  p0 and s0 are the
original primary (thigh or scaled upper-arm) and second (calf or scaled
forearm) lengths and f the clamped hip-foot or shoulder-hand distance. -/
theorem c4_cosine_fallback (p0 s0 f : ℝ) (hp : 0 ≤ p0) (hs : 0 ≤ s0) (hf : 0.1 ≤ f)
    (hnan : cosLawNaN (stretchSegments p0 s0 f).2 f (stretchSegments p0 s0 f).1) :
    ¬ cosLawNaN ((p0 + s0) / 2) f ((p0 + s0) / 2) ∧
    -1 ≤ cosLawArg ((p0 + s0) / 2) f ((p0 + s0) / 2) ∧
    cosLawArg ((p0 + s0) / 2) f ((p0 + s0) / 2) ≤ 1 ∧
    solveTwoBone p0 s0 f = ((p0 + s0) / 2, (p0 + s0) / 2,
      Real.arccos (cosLawArg ((p0 + s0) / 2) f ((p0 + s0) / 2))) := by
  have hle : f ≤ p0 + s0 := by
    by_contra hgt
    exact stretchSegments_not_nan p0 s0 f hp hs hf (not_le.mp hgt) hnan
  have hm : 0 < (p0 + s0) / 2 := by linarith
  have hf0 : 0 < f := by linarith
  have hdom : ¬ cosLawNaN ((p0 + s0) / 2) f ((p0 + s0) / 2) :=
    cosLawArg_in_domain _ f _ hm hf0 (by linarith) (by linarith) (by linarith)
  have hrange : -1 ≤ cosLawArg ((p0 + s0) / 2) f ((p0 + s0) / 2) ∧
      cosLawArg ((p0 + s0) / 2) f ((p0 + s0) / 2) ≤ 1 := by
    rcases not_or.mp hdom with ⟨-, hrest⟩
    rcases not_or.mp hrest with ⟨ha, hb⟩
    exact ⟨le_of_not_lt ha, le_of_not_lt hb⟩
  exact ⟨hdom, hrange.1, hrange.2, by rw [solveTwoBone, if_pos hnan]⟩

/-- Witness for Claim C4: original lengths 3 and 1 with distance 1 violate
the triangle inequality, the law-of-cosines argument is -3.5, and the
fallback with both segments 2 succeeds. -/
theorem c4_cosine_fallback_witness :
    ¬ cosLawNaN ((3 + 1) / 2) 1 ((3 + 1) / 2) ∧
    -1 ≤ cosLawArg ((3 + 1) / 2) 1 ((3 + 1) / 2) ∧
    cosLawArg ((3 + 1) / 2) 1 ((3 + 1) / 2) ≤ 1 ∧
    solveTwoBone 3 1 1 = ((3 + 1) / 2, (3 + 1) / 2,
      Real.arccos (cosLawArg ((3 + 1) / 2) 1 ((3 + 1) / 2))) :=
  c4_cosine_fallback 3 1 1 (by norm_num) (by norm_num) (by norm_num) (by
    have h : stretchSegments 3 1 1 = (3, 1) := by
      rw [stretchSegments, if_neg (by norm_num)]
    rw [h]
    refine Or.inr (Or.inl ?_)
    rw [cosLawArg]
    norm_num)

/-! ## Claim C1 -/

/-- Entries other than the processed one are untouched by a loop step. -/
theorem setHandPoseStep_ne (fingerData : ℕ → Option (Mat3 × Vec3)) (f : ℕ → BoneEntry)
    {i j : ℕ} (h : j ≠ i) : setHandPoseStep fingerData f i j = f j := by
  rw [setHandPoseStep, if_neg h]

/-- Once an entry has been processed its value never changes for the rest of
the loop. -/
theorem setHandPoseRun_stable (fingerData : ℕ → Option (Mat3 × Vec3))
    (f : ℕ → BoneEntry) (m : ℕ) :
    ∀ n, m ≤ n → ∀ j, j < m → setHandPoseRun fingerData f n j = setHandPoseRun fingerData f m j := by
  intro n
  induction n with
  | zero =>
    intro hm j hj
    obtain rfl : m = 0 := Nat.le_zero.mp hm
    rfl
  | succ k ih =>
    intro hm j hj
    rcases Nat.lt_or_ge m (k + 1) with hmk | hmk
    · have hmk2 : m ≤ k := Nat.lt_succ_iff.mp hmk
      have hjk : j ≠ k := Nat.ne_of_lt (lt_of_lt_of_le hj hmk2)
      show setHandPoseStep fingerData (setHandPoseRun fingerData f k) k j = _
      rw [setHandPoseStep_ne fingerData _ hjk]
      exact ih hmk2 j hj
    · obtain rfl : m = k + 1 := le_antisymm hm hmk
      rfl

/-- The processed entry keeps its parent index. -/
theorem stepEntry_parPos (fingerData : ℕ → Option (Mat3 × Vec3)) (f : ℕ → BoneEntry)
    (i : ℕ) : (stepEntry fingerData f i).parPos = (f i).parPos := by
  rw [stepEntry]
  rcases fingerData i with - | rp <;> rcases h : (f i).refNode with - | w <;> simp [h]

/-- The processed entry keeps its refNode. -/
theorem stepEntry_refNode (fingerData : ℕ → Option (Mat3 × Vec3)) (f : ℕ → BoneEntry)
    (i : ℕ) : (stepEntry fingerData f i).refNode = (f i).refNode := by
  rw [stepEntry]
  rcases fingerData i with - | rp <;> rcases h : (f i).refNode with - | w <;> simp [h]

/-- The loop never changes a parent index. -/
theorem setHandPoseRun_parPos (fingerData : ℕ → Option (Mat3 × Vec3))
    (f : ℕ → BoneEntry) (n j : ℕ) :
    (setHandPoseRun fingerData f n j).parPos = (f j).parPos := by
  induction n with
  | zero => rfl
  | succ k ih =>
    show (setHandPoseStep fingerData (setHandPoseRun fingerData f k) k j).parPos = _
    rw [setHandPoseStep]
    split_ifs with hj
    · subst hj
      rw [stepEntry_parPos]
      exact ih
    · exact ih

/-- The loop never changes a refNode. -/
theorem setHandPoseRun_refNode (fingerData : ℕ → Option (Mat3 × Vec3))
    (f : ℕ → BoneEntry) (n j : ℕ) :
    (setHandPoseRun fingerData f n j).refNode = (f j).refNode := by
  induction n with
  | zero => rfl
  | succ k ih =>
    show (setHandPoseStep fingerData (setHandPoseRun fingerData f k) k j).refNode = _
    rw [setHandPoseStep]
    split_ifs with hj
    · subst hj
      rw [stepEntry_refNode]
      exact ih
    · exact ih

/-- The world transform a non-refNode step writes satisfies the propagation
equations with respect to the state it read. -/
theorem stepEntry_world (fingerData : ℕ → Option (Mat3 × Vec3)) (f : ℕ → BoneEntry)
    (i : ℕ) (href : (f i).refNode = none) :
    (stepEntry fingerData f i).world.pos =
      (f (f i).parPos).world.pos + (f (f i).parPos).world.rot *
        ((stepEntry fingerData f i).loc.pos * (f (f i).parPos).world.scale) ∧
    (stepEntry fingerData f i).world.rot =
      (f (f i).parPos).world.rot * (stepEntry fingerData f i).loc.rot := by
  rw [stepEntry]
  rcases hfd : fingerData i with - | rp <;> simp [href, hfd]

/-- Claim C1 (confirmed): after the propagation pass over the flattened bone
tree — the non-refNode branch of the per-bone loop of setHandPose, run over
all N entries, and rotateLeg — every node processed through the non-refNode
branch whose parent entry precedes it in the array (the tree is stored in
topological order) satisfies world.pos = parent.world.pos +
parent.world.rot * (local.pos * parent.world.scale) and world.rot =
parent.world.rot * local.rot against the final state of the array. -/
theorem c1_propagation (fingerData : ℕ → Option (Mat3 × Vec3)) (f : ℕ → BoneEntry)
    (N i : ℕ) (hiN : i < N) (href : (f i).refNode = none) (hpar : (f i).parPos < i)
    (eulerRot : Mat3) (g : ℕ → BoneEntry) (pos : ℕ) (hg : (g pos).parPos ≠ pos) :
    ((setHandPoseRun fingerData f N i).world.pos =
        (setHandPoseRun fingerData f N ((setHandPoseRun fingerData f N i).parPos)).world.pos +
        (setHandPoseRun fingerData f N ((setHandPoseRun fingerData f N i).parPos)).world.rot *
          ((setHandPoseRun fingerData f N i).loc.pos *
           (setHandPoseRun fingerData f N ((setHandPoseRun fingerData f N i).parPos)).world.scale) ∧
      (setHandPoseRun fingerData f N i).world.rot =
        (setHandPoseRun fingerData f N ((setHandPoseRun fingerData f N i).parPos)).world.rot *
          (setHandPoseRun fingerData f N i).loc.rot) ∧
    ((rotateLeg eulerRot g pos pos).world.pos =
        (rotateLeg eulerRot g pos ((rotateLeg eulerRot g pos pos).parPos)).world.pos +
        (rotateLeg eulerRot g pos ((rotateLeg eulerRot g pos pos).parPos)).world.rot *
          ((rotateLeg eulerRot g pos pos).loc.pos *
           (rotateLeg eulerRot g pos ((rotateLeg eulerRot g pos pos).parPos)).world.scale) ∧
      (rotateLeg eulerRot g pos pos).world.rot =
        (rotateLeg eulerRot g pos ((rotateLeg eulerRot g pos pos).parPos)).world.rot *
          (rotateLeg eulerRot g pos pos).loc.rot) := by
  constructor
  · -- setHandPose part
    have hpp : (setHandPoseRun fingerData f N i).parPos = (f i).parPos :=
      setHandPoseRun_parPos fingerData f N i
    have hFi : setHandPoseRun fingerData f N i =
        stepEntry fingerData (setHandPoseRun fingerData f i) i := by
      have h1 : setHandPoseRun fingerData f N i = setHandPoseRun fingerData f (i + 1) i :=
        setHandPoseRun_stable fingerData f (i + 1) N hiN i (Nat.lt_succ_self i)
      rw [h1]
      show setHandPoseStep fingerData (setHandPoseRun fingerData f i) i i = _
      rw [setHandPoseStep, if_pos rfl]
    have hFp : setHandPoseRun fingerData f N ((f i).parPos) =
        setHandPoseRun fingerData f i ((f i).parPos) :=
      setHandPoseRun_stable fingerData f i N (le_of_lt hiN) _ hpar
    have hrefi : (setHandPoseRun fingerData f i i).refNode = none := by
      rw [setHandPoseRun_refNode]
      exact href
    have hppi : (setHandPoseRun fingerData f i i).parPos = (f i).parPos :=
      setHandPoseRun_parPos fingerData f i i
    have hw := stepEntry_world fingerData (setHandPoseRun fingerData f i) i hrefi
    rw [hppi] at hw
    rw [hpp, hFi, hFp]
    exact hw
  · -- rotateLeg part
    have hpos : rotateLeg eulerRot g pos pos =
        { g pos with
          loc := { (g pos).loc with rot := (g pos).loc.rot * eulerRot }
          world := ⟨(g ((g pos).parPos)).world.rot * ((g pos).loc.rot * eulerRot),
                    (g ((g pos).parPos)).world.pos + (g ((g pos).parPos)).world.rot *
                      ((g pos).loc.pos * (g ((g pos).parPos)).world.scale),
                    (g pos).world.scale⟩ } := by
      rw [rotateLeg]
      simp
    have hparpos : (rotateLeg eulerRot g pos pos).parPos = (g pos).parPos := by
      rw [hpos]
    have hparent : rotateLeg eulerRot g pos ((g pos).parPos) = g ((g pos).parPos) := by
      rw [rotateLeg]
      simp only []
      rw [if_neg hg]
    rw [hparpos, hparent, hpos]
    exact ⟨rfl, rfl⟩

/-- Witness for Claim C1 on a two-entry tree whose second entry is a
non-refNode child of the first, with an identity rotateLeg step. -/
theorem c1_propagation_witness :
    let idT : NiTransform := ⟨idMat, ⟨0, 0, 0⟩, 1⟩
    let bw : BoneEntry := ⟨idT, idT, 0, none⟩
    let F := setHandPoseRun (fun _ => none) (fun _ => bw) 2
    let G := rotateLeg idMat (fun _ => bw) 1
    ((F 1).world.pos = (F ((F 1).parPos)).world.pos +
        (F ((F 1).parPos)).world.rot * ((F 1).loc.pos * (F ((F 1).parPos)).world.scale) ∧
      (F 1).world.rot = (F ((F 1).parPos)).world.rot * (F 1).loc.rot) ∧
    ((G 1).world.pos = (G ((G 1).parPos)).world.pos +
        (G ((G 1).parPos)).world.rot * ((G 1).loc.pos * (G ((G 1).parPos)).world.scale) ∧
      (G 1).world.rot = (G ((G 1).parPos)).world.rot * (G 1).loc.rot) :=
  c1_propagation (fun _ => none)
    (fun _ => ⟨⟨idMat, ⟨0, 0, 0⟩, 1⟩, ⟨idMat, ⟨0, 0, 0⟩, 1⟩, 0, none⟩)
    2 1 (by norm_num) rfl Nat.zero_lt_one idMat
    (fun _ => ⟨⟨idMat, ⟨0, 0, 0⟩, 1⟩, ⟨idMat, ⟨0, 0, 0⟩, 1⟩, 0, none⟩) 1 Nat.zero_ne_one

/-! ## Claim C3 -/

/-- Claim C3 (corrected): the non-finite-hand and 200-unit aborts of setArms
return before any arm bone is modified, and on every path through the entry
section only the clavicle (shoulder) rotation can change — so the
2.25-arm-length abort returns with the shoulder-shrug rotation already
applied, and only the NaN/Inf and 200-unit aborts leave the whole arm chain
exactly as the restore step set it. -/
theorem c3_arm_abort_amended (rvv : Vec3 → Vec3 → Mat3) (inp : ArmInputs)
    (st : ArmChainState) :
    ((setArmsGuard rvv inp st).2 = ArmAbort.invalidHand →
      (setArmsGuard rvv inp st).1 = st) ∧
    ((setArmsGuard rvv inp st).1.upper = st.upper ∧
     (setArmsGuard rvv inp st).1.forearm1 = st.forearm1 ∧
     (setArmsGuard rvv inp st).1.forearm2 = st.forearm2 ∧
     (setArmsGuard rvv inp st).1.forearm3 = st.forearm3 ∧
     (setArmsGuard rvv inp st).1.hand = st.hand ∧
     (setArmsGuard rvv inp st).1.shoulder.pos = st.shoulder.pos ∧
     (setArmsGuard rvv inp st).1.shoulder.scale = st.shoulder.scale) ∧
    ((inp.handPosX.isFinite = false ∨ inp.handPosY.isFinite = false ∨
        inp.handPosZ.isFinite = false) →
      setArmsGuard rvv inp st = (st, ArmAbort.invalidHand)) := by
  have hiii : (inp.handPosX.isFinite = false ∨ inp.handPosY.isFinite = false ∨
      inp.handPosZ.isFinite = false) →
      setArmsGuard rvv inp st = (st, ArmAbort.invalidHand) := by
    intro hbad
    rw [setArmsGuard, if_pos]
    refine Or.inl ?_
    intro hfin
    rcases hbad with hb | hb | hb
    · rw [hb] at hfin; exact Bool.false_ne_true hfin.1
    · rw [hb] at hfin; exact Bool.false_ne_true hfin.2.1
    · rw [hb] at hfin; exact Bool.false_ne_true hfin.2.2
  refine ⟨?_, ?_, hiii⟩ <;>
  · rw [setArmsGuard]
    dsimp only
    split_ifs <;>
      first
        | (intro h; exact h.elim)
        | (intro _; rfl)
        | exact ⟨rfl, rfl, rfl, rfl, rfl, rfl, rfl⟩


/-- Step-by-step evaluation of the setArmsGuard entry section, used to
compute it on concrete inputs: each intermediate of the code is supplied as
an equation and the tooFar outcome follows. -/
theorem setArmsGuard_eval (rvv : Vec3 → Vec3 → Mat3) (inp : ArmInputs)
    (st : ArmChainState) (handPos sth soff sld uw1pos : Vec3) (sw0 uw0 : NiTransform)
    (aa uLen fLen hs : ℝ) (R : Mat3)
    (hfx : inp.handPosX.isFinite = true) (hfy : inp.handPosY.isFinite = true)
    (hfz : inp.handPosZ.isFinite = true)
    (hhand : (⟨inp.handPosX.val, inp.handPosY.val, inp.handPosZ.val⟩ : Vec3) = handPos)
    (hsw0 : composeT inp.shoulderParentWorld st.shoulder = sw0)
    (huw0 : composeT sw0 st.upper = uw0)
    (h200 : ¬ vec3Len (uw0.pos - handPos) > 200)
    (hsth : handPos - uw0.pos = sth)
    (haa : clampR (vec3Len sth - inp.armLengthConfig * 0.5) 0
        (inp.armLengthConfig * 0.85) / (inp.armLengthConfig * 0.85) = aa)
    (hsoff : vec3Norm sth * (aa * inp.armLengthConfig * 0.08) = soff)
    (hsld : sw0.rot.transpose * (uw0.pos + soff - sw0.pos) / sw0.scale = sld)
    (hR : st.shoulder.rot * rvv sld ⟨1, 0, 0⟩ = R)
    (huw1 : (composeT (composeT inp.shoulderParentWorld
        { st.shoulder with rot := R }) st.upper).pos = uw1pos)
    (hfa : inp.inPowerArmor = false)
    (hu : vec3Len st.forearm1.pos * (inp.armLengthConfig / 36.74) = uLen)
    (hflen : (vec3Len st.hand.pos + vec3Len st.forearm2.pos + vec3Len st.forearm3.pos)
        * (inp.armLengthConfig / 36.74) = fLen)
    (hhs : max (vec3Len (uw1pos - handPos)) 0.1 = hs)
    (hfar : hs > (uLen + fLen) * 2.25) :
    setArmsGuard rvv inp st =
      ({ st with shoulder := { st.shoulder with rot := R } }, ArmAbort.tooFar) := by
  rw [setArmsGuard]
  simp only [hhand, hsw0, huw0, hsth, haa, hsoff, hsld, hR, hfa, hfx, hfy, hfz]
  simp [h200, hfar, huw1, hu, hflen, hhs]

/-- Counterexample for Claim C3 as stated: with a finite hand position 40
units from the shoulder (so the NaN/Inf and 200-unit guards pass), a
configured arm length of 20 and bind arm segments of lengths 1 and 2, the
2.25-arm-length guard aborts the solve, yet the clavicle (shoulder) local
rotation has already been changed by the shoulder-shrug step — that arm's
bones are not all left as the restore step set them. -/
theorem c3_abort_counterexample :
    (setArmsGuard rotBetween
        ⟨⟨idMat, ⟨0, 0, 0⟩, 1⟩, FFloat.fin 0, FFloat.fin 40, FFloat.fin 0, idMat, 20, false⟩
        ⟨⟨idMat, ⟨0, 0, 0⟩, 1⟩, ⟨idMat, ⟨0, 0, 0⟩, 1⟩, ⟨idMat, ⟨1, 0, 0⟩, 1⟩,
         ⟨idMat, ⟨0, 0, 0⟩, 1⟩, ⟨idMat, ⟨0, 0, 0⟩, 1⟩, ⟨idMat, ⟨2, 0, 0⟩, 1⟩⟩).2
      = ArmAbort.tooFar ∧
    (setArmsGuard rotBetween
        ⟨⟨idMat, ⟨0, 0, 0⟩, 1⟩, FFloat.fin 0, FFloat.fin 40, FFloat.fin 0, idMat, 20, false⟩
        ⟨⟨idMat, ⟨0, 0, 0⟩, 1⟩, ⟨idMat, ⟨0, 0, 0⟩, 1⟩, ⟨idMat, ⟨1, 0, 0⟩, 1⟩,
         ⟨idMat, ⟨0, 0, 0⟩, 1⟩, ⟨idMat, ⟨0, 0, 0⟩, 1⟩, ⟨idMat, ⟨2, 0, 0⟩, 1⟩⟩).1.shoulder.rot
      ≠ idMat := by
  have hs1600 : Real.sqrt 1600 = 40 := by
    rw [show (1600 : ℝ) = 40 ^ 2 by norm_num, Real.sqrt_sq (by norm_num)]
  have hs6425 : Real.sqrt (64 / 25) = 8 / 5 := by
    rw [show (64 / 25 : ℝ) = (8 / 5) ^ 2 by norm_num, Real.sqrt_sq (by norm_num)]
  have hs4 : Real.sqrt 4 = 2 := by
    rw [show (4 : ℝ) = 2 ^ 2 by norm_num, Real.sqrt_sq (by norm_num)]
  have hguard := setArmsGuard_eval rotBetween
    ⟨⟨idMat, ⟨0, 0, 0⟩, 1⟩, FFloat.fin 0, FFloat.fin 40, FFloat.fin 0, idMat, 20, false⟩
    ⟨⟨idMat, ⟨0, 0, 0⟩, 1⟩, ⟨idMat, ⟨0, 0, 0⟩, 1⟩, ⟨idMat, ⟨1, 0, 0⟩, 1⟩,
     ⟨idMat, ⟨0, 0, 0⟩, 1⟩, ⟨idMat, ⟨0, 0, 0⟩, 1⟩, ⟨idMat, ⟨2, 0, 0⟩, 1⟩⟩
    ⟨0, 40, 0⟩ ⟨0, 40, 0⟩ ⟨0, 8 / 5, 0⟩ ⟨0, 8 / 5, 0⟩ ⟨0, 0, 0⟩
    ⟨idMat, ⟨0, 0, 0⟩, 1⟩ ⟨idMat, ⟨0, 0, 0⟩, 1⟩
    1 (1000 / 1837) (2000 / 1837) 40 ⟨⟨0, 1, 0⟩, ⟨-1, 0, 0⟩, ⟨0, 0, 1⟩⟩
    rfl rfl rfl
    (by norm_num [FFloat.val])
    (by norm_num [composeT, idMat, mat3_mul_def, mat3_vec_def, vec3_add_def,
      vec3_smul_def, vec3Dot, Mat3.col0, Mat3.col1, Mat3.col2])
    (by norm_num [composeT, idMat, mat3_mul_def, mat3_vec_def, vec3_add_def,
      vec3_smul_def, vec3Dot, Mat3.col0, Mat3.col1, Mat3.col2])
    (by norm_num [vec3Len, vec3_sub_def, hs1600])
    (by norm_num [vec3_sub_def])
    (by
      rw [show vec3Len ⟨0, 40, 0⟩ = 40 from vec3Len_mk 0 40 0 40 (by norm_num) (by norm_num)]
      rw [show ((20 : ℝ) * 0.5) = 10 by norm_num, show ((20 : ℝ) * 0.85) = 17 by norm_num]
      rw [show ((40 : ℝ) - 10) = 30 by norm_num]
      rw [clampR_of_hi_le (by norm_num) (by norm_num)]
      norm_num)
    (by
      rw [show vec3Norm ⟨0, 40, 0⟩ = ⟨0 / 40, 40 / 40, 0 / 40⟩ from
        vec3Norm_mk 0 40 0 40 (by norm_num) (by norm_num)]
      norm_num [vec3_smul_def])
    (by norm_num [Mat3.transpose, Mat3.col0, Mat3.col1, Mat3.col2, idMat, mat3_vec_def,
      vec3Dot, vec3_add_def, vec3_sub_def, vec3_sdiv_def])
    (by
      rw [show rotBetween ⟨0, 8 / 5, 0⟩ ⟨1, 0, 0⟩ = ⟨⟨0, 1, 0⟩, ⟨-1, 0, 0⟩, ⟨0, 0, 1⟩⟩ from ?_]
      · norm_num [mat3_mul_def, idMat, Mat3.col0, Mat3.col1, Mat3.col2, vec3Dot]
      · rw [rotBetween]
        rw [show vec3Norm ⟨0, 8 / 5, 0⟩ = ⟨0 / (8 / 5), 8 / 5 / (8 / 5), 0 / (8 / 5)⟩ from
          vec3Norm_mk 0 (8 / 5) 0 (8 / 5) (by norm_num) (by norm_num)]
        rw [show vec3Norm ⟨1, 0, 0⟩ = ⟨1 / 1, 0 / 1, 0 / 1⟩ from
          vec3Norm_mk 1 0 0 1 (by norm_num) (by norm_num)]
        norm_num [vec3Cross, vec3Dot, mat3_mul_def, mat3_add_def, mat3_div_def, idMat,
          Mat3.col0, Mat3.col1, Mat3.col2, vec3_add_def, vec3_sdiv_def])
    (by norm_num [composeT, idMat, mat3_mul_def, mat3_vec_def, vec3_add_def,
      vec3_smul_def, vec3Dot, Mat3.col0, Mat3.col1, Mat3.col2])
    rfl
    (by
      rw [show vec3Len ⟨1, 0, 0⟩ = 1 from vec3Len_mk 1 0 0 1 (by norm_num) (by norm_num)]
      norm_num)
    (by
      rw [show vec3Len ⟨2, 0, 0⟩ = 2 from vec3Len_mk 2 0 0 2 (by norm_num) (by norm_num)]
      rw [show vec3Len ⟨0, 0, 0⟩ = 0 from vec3Len_mk 0 0 0 0 (by norm_num) (by norm_num)]
      norm_num)
    (by
      rw [show (⟨0, 0, 0⟩ - ⟨0, 40, 0⟩ : Vec3) = ⟨0, -40, 0⟩ by norm_num [vec3_sub_def]]
      rw [show vec3Len ⟨0, -40, 0⟩ = 40 from vec3Len_mk 0 (-40) 0 40 (by norm_num) (by norm_num)]
      rw [max_eq_left (by norm_num)])
    (by norm_num)
  rw [hguard]
  refine ⟨rfl, ?_⟩
  intro h
  have h01 := congrArg (fun m => m.r0.y) h
  norm_num [idMat] at h01

/-! ## Walk lemmas (Claims C6, C7, C9) -/

/-- The switch stores the smoothed speed in prevSpeed on every path. -/
theorem walkSwitch_prevSpeed (inp : WalkInputs) (lFootPosW rFootPosW dir : Vec3)
    (curSpeed stepTime : ℝ) (s : WalkState) :
    (walkSwitch inp lFootPosW rFootPosW dir curSpeed stepTime s).prevSpeed = curSpeed := by
  rw [walkSwitch]
  dsimp only
  split_ifs <;> rfl

/-- The switch leaves the walking state at 0, 1 or 2. -/
theorem walkSwitch_state (inp : WalkInputs) (lFootPosW rFootPosW dir : Vec3)
    (curSpeed stepTime : ℝ) (s : WalkState) :
    (walkSwitch inp lFootPosW rFootPosW dir curSpeed stepTime s).walkingState = 0 ∨
    (walkSwitch inp lFootPosW rFootPosW dir curSpeed stepTime s).walkingState = 1 ∨
    (walkSwitch inp lFootPosW rFootPosW dir curSpeed stepTime s).walkingState = 2 := by
  rw [walkSwitch]
  dsimp only
  split_ifs <;> simp_all

/-- The tail converts Stopping to Idle and otherwise keeps the state. -/
theorem walkTail_walkingState (inp : WalkInputs) (lFootPosW rFootPosW dir : Vec3)
    (curSpeed stepTime : ℝ) (s : WalkState) :
    (walkTail inp lFootPosW rFootPosW dir curSpeed stepTime s).walkingState =
      if s.walkingState = 2 then 0 else s.walkingState := by
  rw [walkTail]
  dsimp only
  split_ifs <;> simp_all

/-- The tail never touches prevSpeed. -/
theorem walkTail_prevSpeed (inp : WalkInputs) (lFootPosW rFootPosW dir : Vec3)
    (curSpeed stepTime : ℝ) (s : WalkState) :
    (walkTail inp lFootPosW rFootPosW dir curSpeed stepTime s).prevSpeed = s.prevSpeed := by
  rw [walkTail]
  dsimp only
  split_ifs <;> rfl

/-- The tail either keeps stepTimeinStep or re-stores the same step duration
it was called with. -/
theorem walkTail_stepTimeinStep (inp : WalkInputs) (lFootPosW rFootPosW dir : Vec3)
    (curSpeed stepTime : ℝ) (s : WalkState) :
    (walkTail inp lFootPosW rFootPosW dir curSpeed stepTime s).stepTimeinStep =
      s.stepTimeinStep ∨
    (walkTail inp lFootPosW rFootPosW dir curSpeed stepTime s).stepTimeinStep = stepTime := by
  rw [walkTail]
  dsimp only
  split_ifs <;> simp

/-- Composition of the switch and the tail always lands in state 0 or 1. -/
theorem walkTail_switch_state (inp : WalkInputs) (lFootPosW rFootPosW dir : Vec3)
    (curSpeed stepTime : ℝ) (s : WalkState) :
    (walkTail inp lFootPosW rFootPosW dir curSpeed stepTime
      (walkSwitch inp lFootPosW rFootPosW dir curSpeed stepTime s)).walkingState = 0 ∨
    (walkTail inp lFootPosW rFootPosW dir curSpeed stepTime
      (walkSwitch inp lFootPosW rFootPosW dir curSpeed stepTime s)).walkingState = 1 := by
  rw [walkTail_walkingState]
  rcases walkSwitch_state inp lFootPosW rFootPosW dir curSpeed stepTime s with h | h | h <;>
    rw [h] <;> norm_num

/-! ## Claim C9 -/

/-- Claim C9 (confirmed): on every call of walk in which the leg nodes are
found, the walking-state variable that persists to the next frame is 0 (Idle)
or 1 (Walking): Stopping(2) and Redirecting(3) are converted inside the same
call and are never observable across frames. -/
theorem c9_walk_state_invariant (inp : WalkInputs) (s : WalkState)
    (h : inp.nodesFound = true) :
    (walkFrame inp s).walkingState = 0 ∨ (walkFrame inp s).walkingState = 1 := by
  rw [walkFrame, if_neg (by simp [h])]
  dsimp only
  exact walkTail_switch_state _ _ _ _ _ _ _

/-- Witness for Claim C9 at a concrete idle state and trivial inputs. -/
theorem c9_walk_state_invariant_witness :
    (walkFrame
        ⟨true, ⟨0, 0, 0⟩, ⟨0, 0, 0⟩, 1, ⟨0, 0, 0⟩, ⟨0, 0, 0⟩, 0, false, false, 1,
          fun _ => idMat⟩
        ⟨0, 0, 0, ⟨0, 0, 0⟩, 1, 0, 2, ⟨0, 0, 0⟩, ⟨0, 0, 0⟩, ⟨0, 0, 0⟩, ⟨0, 0, 0⟩,
          ⟨0, 0, 0⟩, ⟨0, 0, 0⟩, 0, idMat⟩).walkingState = 0 ∨
    (walkFrame
        ⟨true, ⟨0, 0, 0⟩, ⟨0, 0, 0⟩, 1, ⟨0, 0, 0⟩, ⟨0, 0, 0⟩, 0, false, false, 1,
          fun _ => idMat⟩
        ⟨0, 0, 0, ⟨0, 0, 0⟩, 1, 0, 2, ⟨0, 0, 0⟩, ⟨0, 0, 0⟩, ⟨0, 0, 0⟩, ⟨0, 0, 0⟩,
          ⟨0, 0, 0⟩, ⟨0, 0, 0⟩, 0, idMat⟩).walkingState = 1 :=
  c9_walk_state_invariant _ _ rfl

/-- Behavior of the Idle-to-Walking transition of the switch: when not
jumping, not decelerating, idle and at speed 35 or more, the state becomes
Walking, a stepping side is picked, the picked foot's target is its current
position plus dir * speed * stepDuration * 1.5, the step duration is stored
and the step timer is set to half the step duration. -/
theorem walkSwitch_idle_enter (inp : WalkInputs) (l r dir : Vec3) (cs st : ℝ)
    (s : WalkState) (hj : inp.isJumpingOrInAir = false)
    (hdec : ¬(cs - s.prevSpeed < -20)) (h0 : s.walkingState = 0) (h35 : cs ≥ 35) :
    (walkSwitch inp l r dir cs st s).walkingState = 1 ∧
    (walkSwitch inp l r dir cs st s).footStepping = inp.randFoot ∧
    (walkSwitch inp l r dir cs st s).stepDir = dir ∧
    (walkSwitch inp l r dir cs st s).stepTimeinStep = st ∧
    (walkSwitch inp l r dir cs st s).currentStepTime = st / 2 ∧
    (inp.randFoot = 1 →
      (walkSwitch inp l r dir cs st s).rightFootTarget = r + dir * (cs * st * 1.5) ∧
      (walkSwitch inp l r dir cs st s).leftFootTarget = l) ∧
    (inp.randFoot ≠ 1 →
      (walkSwitch inp l r dir cs st s).leftFootTarget = l + dir * (cs * st * 1.5) ∧
      (walkSwitch inp l r dir cs st s).rightFootTarget = r) := by
  rw [walkSwitch]
  dsimp only
  rw [if_neg hdec, hj]
  by_cases hr : inp.randFoot = 1 <;> simp [hr, h0, h35]

/-- Behavior of the deceleration (Redirecting) path of the switch: it runs
from any state, keeps the stepping side, sets the stepping foot's target to
the foot's current position plus dir * speed * stepDuration * 0.1 and
returns to Walking in the same call. -/
theorem walkSwitch_redirect (inp : WalkInputs) (l r dir : Vec3) (cs st : ℝ)
    (s : WalkState) (hj : inp.isJumpingOrInAir = false)
    (hdec : cs - s.prevSpeed < -20) :
    (walkSwitch inp l r dir cs st s).walkingState = 1 ∧
    (walkSwitch inp l r dir cs st s).footStepping = s.footStepping ∧
    (walkSwitch inp l r dir cs st s).stepDir = dir ∧
    (s.footStepping = 1 →
      (walkSwitch inp l r dir cs st s).rightFootTarget = r + dir * (cs * st * 0.1) ∧
      (walkSwitch inp l r dir cs st s).leftFootTarget = s.leftFootTarget) ∧
    (s.footStepping ≠ 1 →
      (walkSwitch inp l r dir cs st s).leftFootTarget = l + dir * (cs * st * 0.1) ∧
      (walkSwitch inp l r dir cs st s).rightFootTarget = s.rightFootTarget) := by
  rw [walkSwitch]
  dsimp only
  rw [if_pos hdec, hj]
  by_cases hf : s.footStepping = 1 <;> simp [hf]

/-- Behavior of the Walking-to-Stopping transition of the switch. -/
theorem walkSwitch_walking_stop (inp : WalkInputs) (l r dir : Vec3) (cs st : ℝ)
    (s : WalkState) (hj : inp.isJumpingOrInAir = false)
    (hdec : ¬(cs - s.prevSpeed < -20)) (h1 : s.walkingState = 1) (hlt : cs < 20) :
    (walkSwitch inp l r dir cs st s).walkingState = 2 := by
  rw [walkSwitch]
  dsimp only
  rw [if_neg hdec, hj]
  simp [h1, hlt]

/-- Behavior of the Stopping-to-Walking transition of the switch. -/
theorem walkSwitch_stopping_resume (inp : WalkInputs) (l r dir : Vec3) (cs st : ℝ)
    (s : WalkState) (hj : inp.isJumpingOrInAir = false)
    (hdec : ¬(cs - s.prevSpeed < -20)) (h2 : s.walkingState = 2) (hge : cs ≥ 20) :
    (walkSwitch inp l r dir cs st s).walkingState = 1 := by
  rw [walkSwitch]
  dsimp only
  rw [if_neg hdec, hj]
  simp [h2, hge]

/-- On an Idle-to-Walking frame the step duration stored for the step equals
the one computed this frame, whether or not the tail swaps sides. -/
theorem walkTail_switch_stepTime (inp : WalkInputs) (l r dir : Vec3) (cs st : ℝ)
    (s : WalkState) (hj : inp.isJumpingOrInAir = false)
    (hdec : ¬(cs - s.prevSpeed < -20)) (h0 : s.walkingState = 0) (h35 : cs ≥ 35) :
    (walkTail inp l r dir cs st (walkSwitch inp l r dir cs st s)).stepTimeinStep = st := by
  rcases walkTail_stepTimeinStep inp l r dir cs st (walkSwitch inp l r dir cs st s)
    with ht | ht
  · rw [ht]
    exact (walkSwitch_idle_enter inp l r dir cs st s hj hdec h0 h35).2.2.2.1
  · exact ht

/-! ## Claim C6 -/

/-- Claim C6 (corrected): the transitions of the walk state machine, against
the embedded switch.  From Idle, a non-decelerating frame with speed at least
35 enters Walking, picks the random stepping side, sets that foot's target to
the foot's current position plus direction * speed * stepDuration * 1.5,
stores the step duration and sets the step timer to stepDuration / 2; from
Walking, speed below 20 enters Stopping; from Stopping, speed at least 20
re-enters Walking; and a deceleration of more than 20 against the previous
frame's speed enters Redirecting from any state — taking precedence over the
other transitions — which reuses the current stepping side, sets that foot's
target to the foot's current position plus direction * speed * stepDuration
* 0.1 (not to the previous target plus that offset), and returns to Walking
within the same call. -/
theorem c6_walk_transitions_amended (inp : WalkInputs) (l r dir : Vec3) (cs st : ℝ)
    (s : WalkState) :
    (inp.isJumpingOrInAir = false → ¬(cs - s.prevSpeed < -20) → s.walkingState = 0 →
      cs ≥ 35 →
      (walkSwitch inp l r dir cs st s).walkingState = 1 ∧
      (walkSwitch inp l r dir cs st s).footStepping = inp.randFoot ∧
      (walkSwitch inp l r dir cs st s).stepTimeinStep = st ∧
      (walkSwitch inp l r dir cs st s).currentStepTime = st / 2 ∧
      (inp.randFoot = 1 →
        (walkSwitch inp l r dir cs st s).rightFootTarget = r + dir * (cs * st * 1.5)) ∧
      (inp.randFoot ≠ 1 →
        (walkSwitch inp l r dir cs st s).leftFootTarget = l + dir * (cs * st * 1.5))) ∧
    (inp.isJumpingOrInAir = false → ¬(cs - s.prevSpeed < -20) → s.walkingState = 1 →
      cs < 20 → (walkSwitch inp l r dir cs st s).walkingState = 2) ∧
    (inp.isJumpingOrInAir = false → ¬(cs - s.prevSpeed < -20) → s.walkingState = 2 →
      cs ≥ 20 → (walkSwitch inp l r dir cs st s).walkingState = 1) ∧
    (inp.isJumpingOrInAir = false → cs - s.prevSpeed < -20 →
      (walkSwitch inp l r dir cs st s).walkingState = 1 ∧
      (walkSwitch inp l r dir cs st s).footStepping = s.footStepping ∧
      (s.footStepping = 1 →
        (walkSwitch inp l r dir cs st s).rightFootTarget = r + dir * (cs * st * 0.1)) ∧
      (s.footStepping ≠ 1 →
        (walkSwitch inp l r dir cs st s).leftFootTarget = l + dir * (cs * st * 0.1))) := by
  refine ⟨fun hj hdec h0 h35 => ?_, fun hj hdec h1 hlt =>
      walkSwitch_walking_stop inp l r dir cs st s hj hdec h1 hlt,
    fun hj hdec h2 hge => walkSwitch_stopping_resume inp l r dir cs st s hj hdec h2 hge,
    fun hj hdec => ?_⟩
  · obtain ⟨a, b, -, d, e, f, g⟩ := walkSwitch_idle_enter inp l r dir cs st s hj hdec h0 h35
    exact ⟨a, b, d, e, fun hr => (f hr).1, fun hr => (g hr).1⟩
  · obtain ⟨a, b, -, d, e⟩ := walkSwitch_redirect inp l r dir cs st s hj hdec
    exact ⟨a, b, fun hf => (d hf).1, fun hf => (e hf).1⟩

/-- Counterexample for Claim C6 as stated: a Walking frame stepping with the
right foot that decelerates from speed 340 to 280 enters Redirecting, but the
right-foot target is set to the foot's current world position plus
direction * speed * stepDuration * 0.1 — not nudged by that offset from its
previous value (1000, 0, 0). -/
theorem c6_redirect_counterexample :
    (walkSwitch
        ⟨true, ⟨0, 0, 0⟩, ⟨0, 0, 0⟩, 1, ⟨0, 0, 0⟩, ⟨0, 0, 0⟩, 0, false, false, 1,
          fun _ => idMat⟩
        ⟨0, 0, 0⟩ ⟨0, 0, 0⟩ ⟨1, 0, 0⟩ 280 0.28
        ⟨1, 340, 1, ⟨1, 0, 0⟩, 0.28, 0, 2, ⟨0, 0, 0⟩, ⟨0, 0, 0⟩, ⟨0, 0, 0⟩,
          ⟨1000, 0, 0⟩, ⟨0, 0, 0⟩, ⟨0, 0, 0⟩, 0, idMat⟩).walkingState = 1 ∧
    (walkSwitch
        ⟨true, ⟨0, 0, 0⟩, ⟨0, 0, 0⟩, 1, ⟨0, 0, 0⟩, ⟨0, 0, 0⟩, 0, false, false, 1,
          fun _ => idMat⟩
        ⟨0, 0, 0⟩ ⟨0, 0, 0⟩ ⟨1, 0, 0⟩ 280 0.28
        ⟨1, 340, 1, ⟨1, 0, 0⟩, 0.28, 0, 2, ⟨0, 0, 0⟩, ⟨0, 0, 0⟩, ⟨0, 0, 0⟩,
          ⟨1000, 0, 0⟩, ⟨0, 0, 0⟩, ⟨0, 0, 0⟩, 0, idMat⟩).rightFootTarget ≠
      (⟨1000, 0, 0⟩ : Vec3) + (⟨1, 0, 0⟩ : Vec3) * ((280 * 0.28 * 0.1 : ℝ)) := by
  obtain ⟨a, -, -, d, -⟩ := walkSwitch_redirect
    ⟨true, ⟨0, 0, 0⟩, ⟨0, 0, 0⟩, 1, ⟨0, 0, 0⟩, ⟨0, 0, 0⟩, 0, false, false, 1,
      fun _ => idMat⟩
    ⟨0, 0, 0⟩ ⟨0, 0, 0⟩ ⟨1, 0, 0⟩ 280 0.28
    ⟨1, 340, 1, ⟨1, 0, 0⟩, 0.28, 0, 2, ⟨0, 0, 0⟩, ⟨0, 0, 0⟩, ⟨0, 0, 0⟩,
      ⟨1000, 0, 0⟩, ⟨0, 0, 0⟩, ⟨0, 0, 0⟩, 0, idMat⟩
    rfl (by norm_num)
  refine ⟨a, ?_⟩
  rw [(d rfl).1]
  intro h
  have hx := congrArg (fun v => v.x) h
  norm_num [vec3_add_def, vec3_smul_def] at hx

/-! ## Claim C7 -/

/-- Claim C7 (confirmed): every walk frame with the leg nodes found computes
speed = clamp(|horizontal displacement| / dt, 0, 350), averaged with the
previous frame's speed when that exceeded 20, stores it as the next frame's
previous speed, and on an Idle-to-Walking frame stores the step duration
clamp(cos(speed / 140), 0.28, 0.50). -/
theorem c7_walk_speed (inp : WalkInputs) (s : WalkState) (h : inp.nodesFound = true) :
    let rawSpeed := clampR (|vec3Len (⟨inp.curentPosition.x, inp.curentPosition.y, 0⟩ -
        ⟨inp.lastPosition.x, inp.lastPosition.y, 0⟩)| / inp.frameTime) 0 350
    let speed := if s.prevSpeed > 20 then (rawSpeed + s.prevSpeed) / 2 else rawSpeed
    (walkFrame inp s).prevSpeed = speed ∧
    (s.walkingState = 0 → inp.isJumpingOrInAir = false → ¬(speed - s.prevSpeed < -20) →
      speed ≥ 35 →
      (walkFrame inp s).stepTimeinStep = clampR (Real.cos (speed / 140)) 0.28 0.5) := by
  intro rawSpeed speed
  rw [walkFrame, if_neg (by simp [h])]
  dsimp only
  constructor
  · rw [walkTail_prevSpeed, walkSwitch_prevSpeed]
  · intro h0 hj hdec h35
    exact walkTail_switch_stepTime inp _ _ _ _ _ s hj hdec h0 h35

/-- Witness for Claim C7 at a concrete frame: displacement (3, 4), dt = 1 and
previous speed 0. -/
theorem c7_walk_speed_witness :
    let rawSpeed := clampR (|vec3Len ((⟨3, 4, 0⟩ : Vec3) - (⟨0, 0, 0⟩ : Vec3))| / 1) 0 350
    let speed := if (0 : ℝ) > 20 then (rawSpeed + 0) / 2 else rawSpeed
    (walkFrame
        ⟨true, ⟨0, 0, 0⟩, ⟨3, 4, 0⟩, 1, ⟨0, 0, 0⟩, ⟨0, 0, 0⟩, 0, false, false, 1,
          fun _ => idMat⟩
        ⟨0, 0, 0, ⟨0, 0, 0⟩, 1, 0, 2, ⟨0, 0, 0⟩, ⟨0, 0, 0⟩, ⟨0, 0, 0⟩, ⟨0, 0, 0⟩,
          ⟨0, 0, 0⟩, ⟨0, 0, 0⟩, 0, idMat⟩).prevSpeed = speed ∧
    ((0 : ℕ) = 0 → false = false → ¬(speed - 0 < -20) → speed ≥ 35 →
      (walkFrame
        ⟨true, ⟨0, 0, 0⟩, ⟨3, 4, 0⟩, 1, ⟨0, 0, 0⟩, ⟨0, 0, 0⟩, 0, false, false, 1,
          fun _ => idMat⟩
        ⟨0, 0, 0, ⟨0, 0, 0⟩, 1, 0, 2, ⟨0, 0, 0⟩, ⟨0, 0, 0⟩, ⟨0, 0, 0⟩, ⟨0, 0, 0⟩,
          ⟨0, 0, 0⟩, ⟨0, 0, 0⟩, 0, idMat⟩).stepTimeinStep =
        clampR (Real.cos (speed / 140)) 0.28 0.5) :=
  c7_walk_speed
    ⟨true, ⟨0, 0, 0⟩, ⟨3, 4, 0⟩, 1, ⟨0, 0, 0⟩, ⟨0, 0, 0⟩, 0, false, false, 1,
      fun _ => idMat⟩
    ⟨0, 0, 0, ⟨0, 0, 0⟩, 1, 0, 2, ⟨0, 0, 0⟩, ⟨0, 0, 0⟩, ⟨0, 0, 0⟩, ⟨0, 0, 0⟩,
      ⟨0, 0, 0⟩, ⟨0, 0, 0⟩, 0, idMat⟩ rfl

/-! ## Claim C8 -/

/-- Claim C8 (corrected): getNeckYaw returns exactly 0 when either
head-to-controller vector is shorter than 10 units (or the player nodes are
absent); otherwise it returns the negated candidate yaw angle scaled by the
attenuation weight and then clamped to 50 degrees either way — the scaling
happens before, not after, the clamp — so the result always lies within
50 degrees either way. -/
theorem c8_neck_yaw_amended (inp : NeckYawInputs) :
    (inp.playerNodesPresent = true →
      (vec3Len (inp.secondaryWandPos - inp.uprightHmdPos) < 10 ∨
        vec3Len (inp.primaryWandPos - inp.uprightHmdPos) < 10) → getNeckYaw inp = 0) ∧
    (degreesToRads (-50) ≤ getNeckYaw inp ∧ getNeckYaw inp ≤ degreesToRads 50) ∧
    (inp.playerNodesPresent = true →
      ¬(vec3Len (inp.secondaryWandPos - inp.uprightHmdPos) < 10 ∨
        vec3Len (inp.primaryWandPos - inp.uprightHmdPos) < 10) →
      getNeckYaw inp = clampR (-(neckYawCore inp).1 * (neckYawCore inp).2)
        (degreesToRads (-50)) (degreesToRads 50)) := by
  have hpi := Real.pi_pos
  have hlohi : degreesToRads (-50) ≤ degreesToRads 50 := by
    rw [degreesToRads, degreesToRads]
    nlinarith
  have hlo0 : degreesToRads (-50) ≤ 0 := by
    rw [degreesToRads]
    nlinarith
  have h0hi : 0 ≤ degreesToRads 50 := by
    rw [degreesToRads]
    nlinarith
  refine ⟨?_, ?_, ?_⟩
  · intro hp hshort
    rw [getNeckYaw, if_neg (by simp [hp])]
    dsimp only
    rw [if_pos hshort]
  · rw [getNeckYaw]
    dsimp only
    split_ifs
    · exact ⟨hlo0, h0hi⟩
    · exact ⟨hlo0, h0hi⟩
    · exact clampR_mem _ hlohi
  · intro hp hshort
    rw [getNeckYaw, if_neg (by simp [hp])]
    dsimp only
    rw [if_neg hshort]

/-- Step-by-step evaluation of neckYawCore on concrete inputs: each
intermediate of the code is supplied as an equation. -/
theorem neckYawCore_eval (inp : NeckYawInputs) (hl hr lL lR sm fd hf : Vec3)
    (w1 w2 wt aP pD : ℝ)
    (hhl : inp.secondaryWandPos - inp.uprightHmdPos = hl)
    (hhr : inp.primaryWandPos - inp.uprightHmdPos = hr)
    (hw1 : (if 0 < hl.z then max (1 - 0.05 * hl.z) 0 else 1) = w1)
    (hw2 : (if 0 < hr.z then max (w1 - 0.05 * hr.z) 0 else w1) = w2)
    (hlL : inp.hmdWorldRot.transpose * hl = lL)
    (hlR : inp.hmdWorldRot.transpose * hr = lR)
    (hwt : (if lR.x < lL.x then max (w2 + 0.02 * (lR.x - lL.x)) 0 else w2) = wt)
    (hsm : hr + hl = sm)
    (hfd : vec3Norm (inp.hmdWorldRot.transpose * vec3Norm sm) = fd)
    (hhf : vec3Norm (inp.hmdWorldRot.transpose * inp.hmdLocalPos) = hf)
    (haP : atan2 fd.x fd.y = aP)
    (hpD : atan2 hf.y hf.z - atan2 fd.z fd.y = pD)
    (hsel : ¬(degreesToRads 80 < |pD|)) :
    neckYawCore inp = (aP, wt) := by
  rw [neckYawCore]
  simp only [hhl, hhr, hw1, hw2, hlL, hlR, hwt, hsm, hfd, hhf, haP, hpD]
  simp [hsel]

/-- Counterexample for Claim C8 as stated: with the head at the origin, the
left hand at (6, -14, 10) (10 units above the head, halving the weight), the
right hand at (14, -6, -10) and the head looking along (0, 1, -1), the
candidate yaw angle is 135 degrees and the weight 1/2; the code returns
clamp(-135deg * 1/2) = -50deg, while clamping first and scaling second would
give -25deg (or +25deg for the opposite sign convention) — the claimed
clamp-then-scale order does not match the code. -/
theorem c8_neck_yaw_counterexample :
    getNeckYaw ⟨true, ⟨0, 0, 0⟩, ⟨6, -14, 10⟩, ⟨14, -6, -10⟩, idMat, ⟨0, 5, -5⟩⟩ ≠
      clampR (-(neckYawCore ⟨true, ⟨0, 0, 0⟩, ⟨6, -14, 10⟩, ⟨14, -6, -10⟩, idMat, ⟨0, 5, -5⟩⟩).1)
        (degreesToRads (-50)) (degreesToRads 50) * (neckYawCore ⟨true, ⟨0, 0, 0⟩, ⟨6, -14, 10⟩, ⟨14, -6, -10⟩, idMat, ⟨0, 5, -5⟩⟩).2 ∧
    getNeckYaw ⟨true, ⟨0, 0, 0⟩, ⟨6, -14, 10⟩, ⟨14, -6, -10⟩, idMat, ⟨0, 5, -5⟩⟩ ≠
      clampR ((neckYawCore ⟨true, ⟨0, 0, 0⟩, ⟨6, -14, 10⟩, ⟨14, -6, -10⟩, idMat, ⟨0, 5, -5⟩⟩).1)
        (degreesToRads (-50)) (degreesToRads 50) * (neckYawCore ⟨true, ⟨0, 0, 0⟩, ⟨6, -14, 10⟩, ⟨14, -6, -10⟩, idMat, ⟨0, 5, -5⟩⟩).2 := by
  have hpi := Real.pi_pos
  have hsinv : (0 : ℝ) < (Real.sqrt 2)⁻¹ := by positivity
  have hlohi : degreesToRads (-50) ≤ degreesToRads 50 := by
    rw [degreesToRads, degreesToRads]
    nlinarith
  have hA : atan2 (Real.sqrt 2)⁻¹ (-(Real.sqrt 2)⁻¹) = 3 * Real.pi / 4 := by
    rw [atan2, if_neg (by push_neg; nlinarith), if_pos ⟨by nlinarith, hsinv.le⟩,
      div_neg, div_self (ne_of_gt hsinv), Real.arctan_neg, Real.arctan_one]
    ring
  have hB : atan2 0 (-(Real.sqrt 2)⁻¹) = Real.pi := by
    rw [atan2, if_neg (by push_neg; nlinarith), if_pos ⟨by nlinarith, le_refl 0⟩,
      zero_div, Real.arctan_zero, zero_add]
  have hcore : neckYawCore ⟨true, ⟨0, 0, 0⟩, ⟨6, -14, 10⟩, ⟨14, -6, -10⟩, idMat, ⟨0, 5, -5⟩⟩ = (3 * Real.pi / 4, 1 / 2) := by
    refine neckYawCore_eval _ ⟨6, -14, 10⟩ ⟨14, -6, -10⟩ ⟨6, -14, 10⟩ ⟨14, -6, -10⟩
      ⟨20, -20, 0⟩ ⟨(Real.sqrt 2)⁻¹, -(Real.sqrt 2)⁻¹, 0⟩
      ⟨0, (Real.sqrt 2)⁻¹, -(Real.sqrt 2)⁻¹⟩ (1 / 2) (1 / 2) (1 / 2)
      (3 * Real.pi / 4) (-(Real.pi / 4)) ?_ ?_ ?_ ?_ ?_ ?_ ?_ ?_ ?_ ?_ ?_ ?_ ?_
    · norm_num [vec3_sub_def]
    · norm_num [vec3_sub_def]
    · norm_num [max_def]
    · norm_num
    · norm_num [Mat3.transpose, Mat3.col0, Mat3.col1, Mat3.col2, idMat, mat3_vec_def,
        vec3Dot]
    · norm_num [Mat3.transpose, Mat3.col0, Mat3.col1, Mat3.col2, idMat, mat3_vec_def,
        vec3Dot]
    · norm_num
    · norm_num [vec3_add_def]
    · have h1 : (20 : ℝ) / (20 * Real.sqrt 2) = (Real.sqrt 2)⁻¹ := by
        rw [div_mul_eq_div_div, div_self (by norm_num : (20 : ℝ) ≠ 0), one_div]
      rw [show vec3Norm (⟨20, -20, 0⟩ : Vec3) = ⟨(Real.sqrt 2)⁻¹, -(Real.sqrt 2)⁻¹, 0⟩ by
        rw [vec3Norm_mk 20 (-20) 0 (20 * Real.sqrt 2) (by positivity)
          (by rw [mul_pow, Real.sq_sqrt (by norm_num : (0 : ℝ) ≤ 2)]; norm_num)]
        rw [neg_div, h1, zero_div]]
      rw [show Mat3.transpose idMat * (⟨(Real.sqrt 2)⁻¹, -(Real.sqrt 2)⁻¹, 0⟩ : Vec3) =
          ⟨(Real.sqrt 2)⁻¹, -(Real.sqrt 2)⁻¹, 0⟩ by
        norm_num [Mat3.transpose, Mat3.col0, Mat3.col1, Mat3.col2, idMat, mat3_vec_def,
          vec3Dot]]
      rw [vec3Norm_mk ((Real.sqrt 2)⁻¹) (-(Real.sqrt 2)⁻¹) 0 1 one_pos
        (by rw [neg_sq, inv_pow, Real.sq_sqrt (by norm_num : (0 : ℝ) ≤ 2)]; norm_num)]
      norm_num
    · have h1 : (5 : ℝ) / (5 * Real.sqrt 2) = (Real.sqrt 2)⁻¹ := by
        rw [div_mul_eq_div_div, div_self (by norm_num : (5 : ℝ) ≠ 0), one_div]
      rw [show Mat3.transpose idMat * (⟨0, 5, -5⟩ : Vec3) = ⟨0, 5, -5⟩ by
        norm_num [Mat3.transpose, Mat3.col0, Mat3.col1, Mat3.col2, idMat, mat3_vec_def,
          vec3Dot]]
      rw [vec3Norm_mk 0 5 (-5) (5 * Real.sqrt 2) (by positivity)
        (by rw [mul_pow, Real.sq_sqrt (by norm_num : (0 : ℝ) ≤ 2)]; norm_num)]
      rw [neg_div, h1, zero_div]
    · show atan2 (Real.sqrt 2)⁻¹ (-(Real.sqrt 2)⁻¹) = 3 * Real.pi / 4
      exact hA
    · show atan2 (Real.sqrt 2)⁻¹ (-(Real.sqrt 2)⁻¹) - atan2 0 (-(Real.sqrt 2)⁻¹) =
        -(Real.pi / 4)
      rw [hA, hB]
      ring
    · rw [degreesToRads, abs_neg, abs_of_nonneg (by positivity)]
      intro hcon
      nlinarith
  have hsub1 : (⟨6, -14, 10⟩ : Vec3) - ⟨0, 0, 0⟩ = ⟨6, -14, 10⟩ := by
    norm_num [vec3_sub_def]
  have hsub2 : (⟨14, -6, -10⟩ : Vec3) - ⟨0, 0, 0⟩ = ⟨14, -6, -10⟩ := by
    norm_num [vec3_sub_def]
  have h10 : (10 : ℝ) ≤ Real.sqrt 332 := by
    rw [show (10 : ℝ) = Real.sqrt 100 by
      rw [show (100 : ℝ) = 10 ^ 2 by norm_num, Real.sqrt_sq (by norm_num)]]
    exact Real.sqrt_le_sqrt (by norm_num)
  have hlen1 : vec3Len (⟨6, -14, 10⟩ : Vec3) = Real.sqrt 332 := by
    rw [vec3Len]
    norm_num
  have hlen2 : vec3Len (⟨14, -6, -10⟩ : Vec3) = Real.sqrt 332 := by
    rw [vec3Len]
    norm_num
  have hshort : ¬(vec3Len ((⟨6, -14, 10⟩ : Vec3) - ⟨0, 0, 0⟩) < 10 ∨
      vec3Len ((⟨14, -6, -10⟩ : Vec3) - ⟨0, 0, 0⟩) < 10) := by
    rw [hsub1, hsub2, hlen1, hlen2, not_or]
    exact ⟨not_lt.mpr h10, not_lt.mpr h10⟩
  have hval : getNeckYaw ⟨true, ⟨0, 0, 0⟩, ⟨6, -14, 10⟩, ⟨14, -6, -10⟩, idMat, ⟨0, 5, -5⟩⟩ = degreesToRads (-50) := by
    rw [getNeckYaw, if_neg (by simp)]
    dsimp only
    rw [if_neg hshort, hcore]
    dsimp only
    rw [clampR_of_le_lo (by rw [degreesToRads]; nlinarith) hlohi]
  constructor
  · rw [hval, hcore]
    dsimp only
    rw [clampR_of_le_lo (by rw [degreesToRads]; nlinarith) hlohi, degreesToRads]
    intro h
    nlinarith
  · rw [hval, hcore]
    dsimp only
    rw [clampR_of_hi_le (by rw [degreesToRads]; nlinarith) hlohi, degreesToRads,
      degreesToRads]
    intro h
    nlinarith
